import Mathlib

/-!
Shallow embedding of `honeybee_schema/model.py`: the Model schema and the five
geometry objects that define it (Plane, Face3D, Shade, Door, Aperture, Face,
Room, Model), their pydantic field constraints and validators, and the
parse/serialize pipeline (pydantic construction and `.dict()` export).

Floats are embedded as rationals (only ordering and list lengths are ever
inspected by the code).  Construction is modelled as a `parse*` function from
an input record type (`*Input`, with `Option` for every field that is optional
or carries a default) to `Except ValidationError` of the parsed entity,
mirroring pydantic's field order, field constraints (`min_items`, `ge`, `lt`,
the `constr` type discriminators) and `@validator` functions.  Serialization
(`serialize*`) rebuilds the record with every field populated, as pydantic's
`.dict()` does.

The classes `NamedBaseModel` (from `_base.py`), the boundary-condition
variants (from `bc.py`) and the energy property payloads (from
`energy/properties.py`) are imported by `model.py` but their files are not
part of the sources at hand; they are modelled from the spec where marked.
-/

/-- Kinds of validation failure, labelling which check of the source rejected
the input: `schemaError` for a wrong or missing required field or a type
discriminator mismatch, `nameError` for the name character constraint,
`geometryError` for the point-arity asserts of `Face3D`, `adjacencyArityError`
for the `suface_bc_objects` validators, `minimumCountError` for the
`min_items=4` constraint on `Room.faces`, `rangeError` for the `ge=0, lt=360`
bounds on `Model.north_angle`, `itemCountError` for the `min_items`/`max_items`
constraints on `Plane`. -/
inductive ValidationError where
  | schemaError
  | nameError
  | geometryError
  | adjacencyArityError
  | minimumCountError
  | rangeError
  | itemCountError
deriving DecidableEq, Repr

/-- A `constr(regex=...)` type discriminator with a default: the field may be
absent (the default applies) but when present must equal the literal. -/
def typeOk (t : Option String) (s : String) : Bool :=
  match t with
  | none => true
  | some v => v == s

/-- Modelled from the spec: `NamedBaseModel` lives in `_base.py`, which is not
among the sources; per the spec the `name` must be non-empty, bounded in
length, and drawn from a reference-safe character set. -/
def validName (s : String) : Bool :=
  decide (0 < s.length) && decide (s.length ≤ 100) &&
    s.toList.all (fun c => c.isAlphanum || c == '_' || c == '-')

/-- Validate every element of a list in order, failing on the first error
(pydantic validates list items sequentially). -/
def parseList {α β : Type} (p : α → Except ValidationError β) :
    List α → Except ValidationError (List β)
  | [] => .ok []
  | a :: as =>
    match p a with
    | .error e => .error e
    | .ok b =>
      match parseList p as with
      | .error e => .error e
      | .ok bs => .ok (b :: bs)

/-- An optional list field with `default=None`: absent stays absent, present
lists are validated elementwise. -/
def parseOptList {α β : Type} (p : α → Except ValidationError β) :
    Option (List α) → Except ValidationError (Option (List β))
  | none => .ok none
  | some l =>
    match parseList p l with
    | .error e => .error e
    | .ok bs => .ok (some bs)

/-- All elements of an optional list satisfy a predicate (trivially true when
the list is absent). -/
def optAll {α : Type} (p : α → Bool) : Option (List α) → Bool
  | none => true
  | some l => l.all p

/-- Input record for `Plane`. -/
structure PlaneInput where
  type : Option String
  n : List ℚ
  o : List ℚ
  x : Option (List ℚ)
deriving DecidableEq, Repr

/-- Parsed `Plane`: normal, origin, optional x-axis, each 3 floats. -/
structure Plane where
  n : List ℚ
  o : List ℚ
  x : Option (List ℚ)
deriving DecidableEq, Repr

/-- Construction of a `Plane`: type discriminator, then `min_items=3,
max_items=3` on `n` and `o`, and on `x` when provided. -/
def parsePlane (i : PlaneInput) : Except ValidationError Plane :=
  if typeOk i.type "Plane" then
    if i.n.length == 3 then
      if i.o.length == 3 then
        match i.x with
        | none => .ok { n := i.n, o := i.o, x := none }
        | some xv =>
          if xv.length == 3 then .ok { n := i.n, o := i.o, x := some xv }
          else .error .itemCountError
      else .error .itemCountError
    else .error .itemCountError
  else .error .schemaError

/-- `.dict()` of a `Plane`: every field populated. -/
def serializePlane (p : Plane) : PlaneInput :=
  { type := some "Plane", n := p.n, o := p.o, x := p.x }

/-- The input wrote every defaultable field explicitly (here: the type
discriminator). -/
def PlaneInput.explicit (i : PlaneInput) : Bool :=
  i.type.isSome

/-- Input record for `Face3D`. -/
structure Face3DInput where
  type : Option String
  boundary : List (List ℚ)
  holes : Option (List (List (List ℚ)))
  plane : Option PlaneInput
deriving DecidableEq, Repr

/-- Parsed `Face3D`: a single planar face in 3D space. -/
structure Face3D where
  boundary : List (List ℚ)
  holes : Option (List (List (List ℚ)))
  plane : Option Plane
deriving DecidableEq, Repr

/-- The `check_num_items` validator on `Face3D.boundary`: every point must
have exactly 3 floats. -/
def Face3D.check_num_items (v : List (List ℚ)) :
    Except ValidationError (List (List ℚ)) :=
  if v.all (fun i => i.length == 3) then .ok v else .error .geometryError

/-- The `check_num_items_holes` validator on `Face3D.holes`: every point of
every hole loop must have exactly 3 floats. -/
def Face3D.check_num_items_holes (v : List (List (List ℚ))) :
    Except ValidationError (List (List (List ℚ))) :=
  if v.all (fun l => l.all (fun pt => pt.length == 3)) then .ok v
  else .error .geometryError

/-- Construction of a `Face3D`: type discriminator, then the boundary
validator, the holes validator when holes are provided, and the nested
`Plane` when provided.  The `boundary` field itself carries no `min_items`
constraint. -/
def parseFace3D (i : Face3DInput) : Except ValidationError Face3D :=
  if typeOk i.type "Face3D" then
    match Face3D.check_num_items i.boundary with
    | .error e => .error e
    | .ok b =>
      match i.holes with
      | none =>
        match i.plane with
        | none => .ok { boundary := b, holes := none, plane := none }
        | some pi =>
          match parsePlane pi with
          | .error e => .error e
          | .ok p => .ok { boundary := b, holes := none, plane := some p }
      | some hs =>
        match Face3D.check_num_items_holes hs with
        | .error e => .error e
        | .ok hs2 =>
          match i.plane with
          | none => .ok { boundary := b, holes := some hs2, plane := none }
          | some pi =>
            match parsePlane pi with
            | .error e => .error e
            | .ok p => .ok { boundary := b, holes := some hs2, plane := some p }
  else .error .schemaError

/-- `.dict()` of a `Face3D`. -/
def serializeFace3D (f : Face3D) : Face3DInput :=
  { type := some "Face3D", boundary := f.boundary, holes := f.holes,
    plane := f.plane.map serializePlane }

/-- The input wrote every defaultable field explicitly, recursively. -/
def Face3DInput.explicit (i : Face3DInput) : Bool :=
  i.type.isSome &&
    (match i.plane with
     | none => true
     | some pi => pi.explicit)

instance {ε α : Type} [DecidableEq ε] [DecidableEq α] : DecidableEq (Except ε α) :=
  fun a b =>
    match a, b with
    | .error e, .error f =>
      if h : e = f then isTrue (by rw [h]) else isFalse (by intro hh; cases hh; exact h rfl)
    | .ok v, .ok w =>
      if h : v = w then isTrue (by rw [h]) else isFalse (by intro hh; cases hh; exact h rfl)
    | .error _, .ok _ => isFalse (by intro h; cases h)
    | .ok _, .error _ => isFalse (by intro h; cases h)

/-- Modelled from the spec: the boundary-condition variants live in `bc.py`,
which is not among the sources; per the spec each variant is a tagged record,
`Ground`, `Outdoors` and `Adiabatic` carrying no linked objects and `Surface`
carrying `boundary_condition_objects`, a list of reference names.  This is the
input record of the tagged union. -/
structure BCInput where
  type : String
  boundary_condition_objects : Option (List String)
deriving DecidableEq, Repr

/-- Parsed boundary condition for a `Door` or `Aperture`:
`Union[Outdoors, Surface]`. -/
inductive DoorApertureBC where
  | outdoors
  | surface (boundary_condition_objects : List String)
deriving DecidableEq, Repr

/-- Parsed boundary condition for a `Face`:
`Union[Ground, Outdoors, Adiabatic, Surface]`. -/
inductive FaceBC where
  | ground
  | outdoors
  | adiabatic
  | surface (boundary_condition_objects : List String)
deriving DecidableEq, Repr

/-- Parse the `Union[Outdoors, Surface]` field of a `Door` or `Aperture`:
the discriminator selects the variant; a `Surface` must supply its
reference list. -/
def parseDoorApertureBC (b : BCInput) : Except ValidationError DoorApertureBC :=
  if b.type == "Outdoors" then .ok .outdoors
  else if b.type == "Surface" then
    match b.boundary_condition_objects with
    | some objs => .ok (.surface objs)
    | none => .error .schemaError
  else .error .schemaError

/-- Parse the `Union[Ground, Outdoors, Adiabatic, Surface]` field of a
`Face`. -/
def parseFaceBC (b : BCInput) : Except ValidationError FaceBC :=
  if b.type == "Ground" then .ok .ground
  else if b.type == "Outdoors" then .ok .outdoors
  else if b.type == "Adiabatic" then .ok .adiabatic
  else if b.type == "Surface" then
    match b.boundary_condition_objects with
    | some objs => .ok (.surface objs)
    | none => .error .schemaError
  else .error .schemaError

/-- `.dict()` of a door/aperture boundary condition. -/
def serializeDoorApertureBC : DoorApertureBC → BCInput
  | .outdoors => { type := "Outdoors", boundary_condition_objects := none }
  | .surface objs => { type := "Surface", boundary_condition_objects := some objs }

/-- `.dict()` of a face boundary condition. -/
def serializeFaceBC : FaceBC → BCInput
  | .ground => { type := "Ground", boundary_condition_objects := none }
  | .outdoors => { type := "Outdoors", boundary_condition_objects := none }
  | .adiabatic => { type := "Adiabatic", boundary_condition_objects := none }
  | .surface objs => { type := "Surface", boundary_condition_objects := some objs }

/-- A boundary-condition record in canonical serialized shape: the reference
list is present exactly on a `Surface`. -/
def BCInput.explicit (b : BCInput) : Bool :=
  (b.type == "Surface") || b.boundary_condition_objects.isNone

/-- The `suface_bc_objects` validator of `Door`: a `Surface` boundary
condition must have 3 `boundary_condition_objects`. -/
def Door.suface_bc_objects (v : DoorApertureBC) :
    Except ValidationError DoorApertureBC :=
  match v with
  | .surface objs =>
    if objs.length == 3 then .ok v else .error .adjacencyArityError
  | _ => .ok v

/-- The `suface_bc_objects` validator of `Aperture`: a `Surface` boundary
condition must have 3 `boundary_condition_objects`. -/
def Aperture.suface_bc_objects (v : DoorApertureBC) :
    Except ValidationError DoorApertureBC :=
  match v with
  | .surface objs =>
    if objs.length == 3 then .ok v else .error .adjacencyArityError
  | _ => .ok v

/-- The `suface_bc_objects` validator of `Face`: a `Surface` boundary
condition must have 2 `boundary_condition_objects`. -/
def Face.suface_bc_objects (v : FaceBC) : Except ValidationError FaceBC :=
  match v with
  | .surface objs =>
    if objs.length == 2 then .ok v else .error .adjacencyArityError
  | _ => .ok v

/-- Modelled from the spec: the per-engine energy payloads live in
`energy/properties.py`, which is not among the sources; per the spec they are
opaque collaborator data never inspected by this core, so each is embedded as
an opaque blob carried through construction and serialization unchanged. -/
structure ShadeEnergyPropertiesAbridged where
  blob : String
deriving DecidableEq, Repr

/-- Modelled from the spec: opaque energy payload of a door (see
`ShadeEnergyPropertiesAbridged`). -/
structure DoorEnergyPropertiesAbridged where
  blob : String
deriving DecidableEq, Repr

/-- Modelled from the spec: opaque energy payload of an aperture. -/
structure ApertureEnergyPropertiesAbridged where
  blob : String
deriving DecidableEq, Repr

/-- Modelled from the spec: opaque energy payload of a face. -/
structure FaceEnergyPropertiesAbridged where
  blob : String
deriving DecidableEq, Repr

/-- Modelled from the spec: opaque energy payload of a room. -/
structure RoomEnergyPropertiesAbridged where
  blob : String
deriving DecidableEq, Repr

/-- Modelled from the spec: opaque energy payload of a model. -/
structure ModelEnergyProperties where
  blob : String
deriving DecidableEq, Repr

/-- Input record for `ShadePropertiesAbridged`. -/
structure ShadePropertiesAbridgedInput where
  type : Option String
  energy : Option ShadeEnergyPropertiesAbridged
deriving DecidableEq, Repr

/-- Parsed extension property envelope of a `Shade`; `energy` has
`default=None`. -/
structure ShadePropertiesAbridged where
  energy : Option ShadeEnergyPropertiesAbridged
deriving DecidableEq, Repr

/-- Construction of a `ShadePropertiesAbridged`: only the type discriminator
is checked; the optional `energy` payload passes through. -/
def parseShadePropertiesAbridged (i : ShadePropertiesAbridgedInput) :
    Except ValidationError ShadePropertiesAbridged :=
  if typeOk i.type "ShadePropertiesAbridged" then .ok { energy := i.energy }
  else .error .schemaError

/-- `.dict()` of a `ShadePropertiesAbridged`. -/
def serializeShadePropertiesAbridged (p : ShadePropertiesAbridged) :
    ShadePropertiesAbridgedInput :=
  { type := some "ShadePropertiesAbridged", energy := p.energy }

/-- The envelope input wrote its type discriminator explicitly. -/
def ShadePropertiesAbridgedInput.explicit (i : ShadePropertiesAbridgedInput) : Bool :=
  i.type.isSome

/-- Input record for `DoorPropertiesAbridged`. -/
structure DoorPropertiesAbridgedInput where
  type : Option String
  energy : Option DoorEnergyPropertiesAbridged
deriving DecidableEq, Repr

/-- Parsed extension property envelope of a `Door`; `energy` has
`default=None`. -/
structure DoorPropertiesAbridged where
  energy : Option DoorEnergyPropertiesAbridged
deriving DecidableEq, Repr

/-- Construction of a `DoorPropertiesAbridged`. -/
def parseDoorPropertiesAbridged (i : DoorPropertiesAbridgedInput) :
    Except ValidationError DoorPropertiesAbridged :=
  if typeOk i.type "DoorPropertiesAbridged" then .ok { energy := i.energy }
  else .error .schemaError

/-- `.dict()` of a `DoorPropertiesAbridged`. -/
def serializeDoorPropertiesAbridged (p : DoorPropertiesAbridged) :
    DoorPropertiesAbridgedInput :=
  { type := some "DoorPropertiesAbridged", energy := p.energy }

/-- The envelope input wrote its type discriminator explicitly. -/
def DoorPropertiesAbridgedInput.explicit (i : DoorPropertiesAbridgedInput) : Bool :=
  i.type.isSome

/-- Input record for `AperturePropertiesAbridged`. -/
structure AperturePropertiesAbridgedInput where
  type : Option String
  energy : Option ApertureEnergyPropertiesAbridged
deriving DecidableEq, Repr

/-- Parsed extension property envelope of an `Aperture`; `energy` has
`default=None`. -/
structure AperturePropertiesAbridged where
  energy : Option ApertureEnergyPropertiesAbridged
deriving DecidableEq, Repr

/-- Construction of an `AperturePropertiesAbridged`. -/
def parseAperturePropertiesAbridged (i : AperturePropertiesAbridgedInput) :
    Except ValidationError AperturePropertiesAbridged :=
  if typeOk i.type "AperturePropertiesAbridged" then .ok { energy := i.energy }
  else .error .schemaError

/-- `.dict()` of an `AperturePropertiesAbridged`. -/
def serializeAperturePropertiesAbridged (p : AperturePropertiesAbridged) :
    AperturePropertiesAbridgedInput :=
  { type := some "AperturePropertiesAbridged", energy := p.energy }

/-- The envelope input wrote its type discriminator explicitly. -/
def AperturePropertiesAbridgedInput.explicit (i : AperturePropertiesAbridgedInput) : Bool :=
  i.type.isSome

/-- Input record for `FacePropertiesAbridged`. -/
structure FacePropertiesAbridgedInput where
  type : Option String
  energy : Option FaceEnergyPropertiesAbridged
deriving DecidableEq, Repr

/-- Parsed extension property envelope of a `Face`; `energy` has
`default=None`. -/
structure FacePropertiesAbridged where
  energy : Option FaceEnergyPropertiesAbridged
deriving DecidableEq, Repr

/-- Construction of a `FacePropertiesAbridged`. -/
def parseFacePropertiesAbridged (i : FacePropertiesAbridgedInput) :
    Except ValidationError FacePropertiesAbridged :=
  if typeOk i.type "FacePropertiesAbridged" then .ok { energy := i.energy }
  else .error .schemaError

/-- `.dict()` of a `FacePropertiesAbridged`. -/
def serializeFacePropertiesAbridged (p : FacePropertiesAbridged) :
    FacePropertiesAbridgedInput :=
  { type := some "FacePropertiesAbridged", energy := p.energy }

/-- The envelope input wrote its type discriminator explicitly. -/
def FacePropertiesAbridgedInput.explicit (i : FacePropertiesAbridgedInput) : Bool :=
  i.type.isSome

/-- Input record for `RoomPropertiesAbridged`. -/
structure RoomPropertiesAbridgedInput where
  type : Option String
  energy : Option RoomEnergyPropertiesAbridged
deriving DecidableEq, Repr

/-- Parsed extension property envelope of a `Room`.  Unlike the other four
abridged envelopes, `energy` here has no default: it is a required field. -/
structure RoomPropertiesAbridged where
  energy : RoomEnergyPropertiesAbridged
deriving DecidableEq, Repr

/-- Construction of a `RoomPropertiesAbridged`: the type discriminator is
checked and the required `energy` payload must be present. -/
def parseRoomPropertiesAbridged (i : RoomPropertiesAbridgedInput) :
    Except ValidationError RoomPropertiesAbridged :=
  if typeOk i.type "RoomPropertiesAbridged" then
    match i.energy with
    | none => .error .schemaError
    | some e => .ok { energy := e }
  else .error .schemaError

/-- `.dict()` of a `RoomPropertiesAbridged`. -/
def serializeRoomPropertiesAbridged (p : RoomPropertiesAbridged) :
    RoomPropertiesAbridgedInput :=
  { type := some "RoomPropertiesAbridged", energy := some p.energy }

/-- The envelope input wrote its type discriminator explicitly. -/
def RoomPropertiesAbridgedInput.explicit (i : RoomPropertiesAbridgedInput) : Bool :=
  i.type.isSome

/-- Input record for `ModelProperties`. -/
structure ModelPropertiesInput where
  type : Option String
  energy : Option ModelEnergyProperties
deriving DecidableEq, Repr

/-- Parsed extension property envelope of a `Model`; like
`RoomPropertiesAbridged`, `energy` is a required field. -/
structure ModelProperties where
  energy : ModelEnergyProperties
deriving DecidableEq, Repr

/-- Construction of a `ModelProperties`: the type discriminator is checked
and the required `energy` payload must be present. -/
def parseModelProperties (i : ModelPropertiesInput) :
    Except ValidationError ModelProperties :=
  if typeOk i.type "ModelProperties" then
    match i.energy with
    | none => .error .schemaError
    | some e => .ok { energy := e }
  else .error .schemaError

/-- `.dict()` of a `ModelProperties`. -/
def serializeModelProperties (p : ModelProperties) : ModelPropertiesInput :=
  { type := some "ModelProperties", energy := some p.energy }

/-- The envelope input wrote its type discriminator explicitly. -/
def ModelPropertiesInput.explicit (i : ModelPropertiesInput) : Bool :=
  i.type.isSome

/-- Input record for `Shade`.  The `name`/`display_name` fields come from
`NamedBaseModel` (modelled from the spec, see `validName`); `properties` is a
required field and is `Option` here only so that its absence — a missing
required field — is representable. -/
structure ShadeInput where
  name : String
  display_name : Option String
  type : Option String
  geometry : Face3DInput
  properties : Option ShadePropertiesAbridgedInput
deriving DecidableEq, Repr

/-- Parsed `Shade`. -/
structure Shade where
  name : String
  display_name : String
  geometry : Face3D
  properties : ShadePropertiesAbridged
deriving DecidableEq, Repr

/-- Construction of a `Shade`: name constraint, type discriminator, nested
geometry, required properties envelope.  Per the spec, `display_name`
defaults to `name` when absent. -/
def parseShade (i : ShadeInput) : Except ValidationError Shade :=
  if validName i.name then
    if typeOk i.type "Shade" then
    match parseFace3D i.geometry with
    | .error e => .error e
    | .ok g =>
      match i.properties with
      | none => .error .schemaError
      | some pin =>
        match parseShadePropertiesAbridged pin with
        | .error e => .error e
        | .ok ps =>
          .ok { name := i.name, display_name := i.display_name.getD i.name,
                geometry := g, properties := ps }
    else .error .schemaError
  else .error .nameError

/-- `.dict()` of a `Shade`. -/
def serializeShade (s : Shade) : ShadeInput :=
  { name := s.name, display_name := some s.display_name, type := some "Shade",
    geometry := serializeFace3D s.geometry,
    properties := some (serializeShadePropertiesAbridged s.properties) }

/-- The input wrote every defaultable field explicitly, recursively. -/
def ShadeInput.explicit (i : ShadeInput) : Bool :=
  i.display_name.isSome && i.type.isSome && i.geometry.explicit &&
    (match i.properties with
     | none => false
     | some pin => pin.explicit)

/-- Input record for `Door`. -/
structure DoorInput where
  name : String
  display_name : Option String
  type : Option String
  geometry : Face3DInput
  boundary_condition : BCInput
  is_glass : Option Bool
  properties : Option DoorPropertiesAbridgedInput
deriving DecidableEq, Repr

/-- Parsed `Door`. -/
structure Door where
  name : String
  display_name : String
  geometry : Face3D
  boundary_condition : DoorApertureBC
  is_glass : Bool
  properties : DoorPropertiesAbridged
deriving DecidableEq, Repr

/-- Construction of a `Door`: name constraint, type discriminator, nested
geometry, the `Union[Outdoors, Surface]` boundary condition with the
`suface_bc_objects` validator, `is_glass` defaulting to `False`, required
properties envelope. -/
def parseDoor (i : DoorInput) : Except ValidationError Door :=
  if validName i.name then
    if typeOk i.type "Door" then
    match parseFace3D i.geometry with
    | .error e => .error e
    | .ok g =>
      match parseDoorApertureBC i.boundary_condition with
      | .error e => .error e
      | .ok bc0 =>
        match Door.suface_bc_objects bc0 with
        | .error e => .error e
        | .ok bc =>
          match i.properties with
          | none => .error .schemaError
          | some pin =>
            match parseDoorPropertiesAbridged pin with
            | .error e => .error e
            | .ok ps =>
              .ok { name := i.name, display_name := i.display_name.getD i.name,
                    geometry := g, boundary_condition := bc,
                    is_glass := i.is_glass.getD false, properties := ps }
    else .error .schemaError
  else .error .nameError

/-- `.dict()` of a `Door`. -/
def serializeDoor (d : Door) : DoorInput :=
  { name := d.name, display_name := some d.display_name, type := some "Door",
    geometry := serializeFace3D d.geometry,
    boundary_condition := serializeDoorApertureBC d.boundary_condition,
    is_glass := some d.is_glass,
    properties := some (serializeDoorPropertiesAbridged d.properties) }

/-- The input wrote every defaultable field explicitly, recursively. -/
def DoorInput.explicit (i : DoorInput) : Bool :=
  i.display_name.isSome && i.type.isSome && i.geometry.explicit &&
    i.boundary_condition.explicit && i.is_glass.isSome &&
    (match i.properties with
     | none => false
     | some pin => pin.explicit)

/-- Input record for `Aperture`. -/
structure ApertureInput where
  name : String
  display_name : Option String
  type : Option String
  geometry : Face3DInput
  boundary_condition : BCInput
  is_operable : Option Bool
  indoor_shades : Option (List ShadeInput)
  outdoor_shades : Option (List ShadeInput)
  properties : Option AperturePropertiesAbridgedInput
deriving DecidableEq, Repr

/-- Parsed `Aperture`. -/
structure Aperture where
  name : String
  display_name : String
  geometry : Face3D
  boundary_condition : DoorApertureBC
  is_operable : Bool
  indoor_shades : Option (List Shade)
  outdoor_shades : Option (List Shade)
  properties : AperturePropertiesAbridged
deriving DecidableEq, Repr

/-- Construction of an `Aperture`: like `Door`, plus `is_operable` defaulting
to `False` and the two optional shade lists. -/
def parseAperture (i : ApertureInput) : Except ValidationError Aperture :=
  if validName i.name then
    if typeOk i.type "Aperture" then
    match parseFace3D i.geometry with
    | .error e => .error e
    | .ok g =>
      match parseDoorApertureBC i.boundary_condition with
      | .error e => .error e
      | .ok bc0 =>
        match Aperture.suface_bc_objects bc0 with
        | .error e => .error e
        | .ok bc =>
          match parseOptList parseShade i.indoor_shades with
          | .error e => .error e
          | .ok ins =>
            match parseOptList parseShade i.outdoor_shades with
            | .error e => .error e
            | .ok outs =>
              match i.properties with
              | none => .error .schemaError
              | some pin =>
                match parseAperturePropertiesAbridged pin with
                | .error e => .error e
                | .ok ps =>
                  .ok { name := i.name,
                        display_name := i.display_name.getD i.name,
                        geometry := g, boundary_condition := bc,
                        is_operable := i.is_operable.getD false,
                        indoor_shades := ins, outdoor_shades := outs,
                        properties := ps }
    else .error .schemaError
  else .error .nameError

/-- `.dict()` of an `Aperture`. -/
def serializeAperture (a : Aperture) : ApertureInput :=
  { name := a.name, display_name := some a.display_name,
    type := some "Aperture",
    geometry := serializeFace3D a.geometry,
    boundary_condition := serializeDoorApertureBC a.boundary_condition,
    is_operable := some a.is_operable,
    indoor_shades := a.indoor_shades.map (List.map serializeShade),
    outdoor_shades := a.outdoor_shades.map (List.map serializeShade),
    properties := some (serializeAperturePropertiesAbridged a.properties) }

/-- The input wrote every defaultable field explicitly, recursively. -/
def ApertureInput.explicit (i : ApertureInput) : Bool :=
  i.display_name.isSome && i.type.isSome && i.geometry.explicit &&
    i.boundary_condition.explicit && i.is_operable.isSome &&
    optAll ShadeInput.explicit i.indoor_shades &&
    optAll ShadeInput.explicit i.outdoor_shades &&
    (match i.properties with
     | none => false
     | some pin => pin.explicit)

/-- The `FaceType` enumeration. -/
inductive FaceType where
  | wall
  | floor
  | roof_ceiling
  | air_wall
deriving DecidableEq, Repr

/-- Parse a `FaceType` from its string value. -/
def parseFaceType (s : String) : Except ValidationError FaceType :=
  if s == "Wall" then .ok .wall
  else if s == "Floor" then .ok .floor
  else if s == "RoofCeiling" then .ok .roof_ceiling
  else if s == "AirWall" then .ok .air_wall
  else .error .schemaError

/-- Serialize a `FaceType` to its string value. -/
def serializeFaceType : FaceType → String
  | .wall => "Wall"
  | .floor => "Floor"
  | .roof_ceiling => "RoofCeiling"
  | .air_wall => "AirWall"

/-- Input record for `Face`. -/
structure FaceInput where
  name : String
  display_name : Option String
  type : Option String
  geometry : Face3DInput
  face_type : String
  boundary_condition : BCInput
  apertures : Option (List ApertureInput)
  doors : Option (List DoorInput)
  indoor_shades : Option (List ShadeInput)
  outdoor_shades : Option (List ShadeInput)
  properties : Option FacePropertiesAbridgedInput
deriving DecidableEq, Repr

/-- Parsed `Face`. -/
structure Face where
  name : String
  display_name : String
  geometry : Face3D
  face_type : FaceType
  boundary_condition : FaceBC
  apertures : Option (List Aperture)
  doors : Option (List Door)
  indoor_shades : Option (List Shade)
  outdoor_shades : Option (List Shade)
  properties : FacePropertiesAbridged
deriving DecidableEq, Repr

/-- Construction of a `Face`: name constraint, type discriminator, nested
geometry, the `FaceType` enum, the four-variant boundary condition with the
`suface_bc_objects` validator (arity 2), the nested aperture/door/shade
lists, required properties envelope. -/
def parseFace (i : FaceInput) : Except ValidationError Face :=
  if validName i.name then
    if typeOk i.type "Face" then
    match parseFace3D i.geometry with
    | .error e => .error e
    | .ok g =>
      match parseFaceType i.face_type with
      | .error e => .error e
      | .ok ft =>
        match parseFaceBC i.boundary_condition with
        | .error e => .error e
        | .ok bc0 =>
          match Face.suface_bc_objects bc0 with
          | .error e => .error e
          | .ok bc =>
            match parseOptList parseAperture i.apertures with
            | .error e => .error e
            | .ok aps =>
              match parseOptList parseDoor i.doors with
              | .error e => .error e
              | .ok drs =>
                match parseOptList parseShade i.indoor_shades with
                | .error e => .error e
                | .ok ins =>
                  match parseOptList parseShade i.outdoor_shades with
                  | .error e => .error e
                  | .ok outs =>
                    match i.properties with
                    | none => .error .schemaError
                    | some pin =>
                      match parseFacePropertiesAbridged pin with
                      | .error e => .error e
                      | .ok ps =>
                        .ok { name := i.name,
                              display_name := i.display_name.getD i.name,
                              geometry := g, face_type := ft,
                              boundary_condition := bc,
                              apertures := aps, doors := drs,
                              indoor_shades := ins, outdoor_shades := outs,
                              properties := ps }
    else .error .schemaError
  else .error .nameError

/-- `.dict()` of a `Face`. -/
def serializeFace (f : Face) : FaceInput :=
  { name := f.name, display_name := some f.display_name, type := some "Face",
    geometry := serializeFace3D f.geometry,
    face_type := serializeFaceType f.face_type,
    boundary_condition := serializeFaceBC f.boundary_condition,
    apertures := f.apertures.map (List.map serializeAperture),
    doors := f.doors.map (List.map serializeDoor),
    indoor_shades := f.indoor_shades.map (List.map serializeShade),
    outdoor_shades := f.outdoor_shades.map (List.map serializeShade),
    properties := some (serializeFacePropertiesAbridged f.properties) }

/-- The input wrote every defaultable field explicitly, recursively. -/
def FaceInput.explicit (i : FaceInput) : Bool :=
  i.display_name.isSome && i.type.isSome && i.geometry.explicit &&
    i.boundary_condition.explicit &&
    optAll ApertureInput.explicit i.apertures &&
    optAll DoorInput.explicit i.doors &&
    optAll ShadeInput.explicit i.indoor_shades &&
    optAll ShadeInput.explicit i.outdoor_shades &&
    (match i.properties with
     | none => false
     | some pin => pin.explicit)

/-- Input record for `Room`. -/
structure RoomInput where
  name : String
  display_name : Option String
  type : Option String
  faces : List FaceInput
  indoor_shades : Option (List ShadeInput)
  outdoor_shades : Option (List ShadeInput)
  properties : Option RoomPropertiesAbridgedInput
deriving DecidableEq, Repr

/-- Parsed `Room`. -/
structure Room where
  name : String
  display_name : String
  faces : List Face
  indoor_shades : Option (List Shade)
  outdoor_shades : Option (List Shade)
  properties : RoomPropertiesAbridged
deriving DecidableEq, Repr

/-- Construction of a `Room`: name constraint, type discriminator, the
required `faces` list with its `min_items=4` constraint, the optional shade
lists, required properties envelope. -/
def parseRoom (i : RoomInput) : Except ValidationError Room :=
  if validName i.name then
    if typeOk i.type "Room" then
      if 4 ≤ i.faces.length then
    match parseList parseFace i.faces with
    | .error e => .error e
    | .ok fs =>
      match parseOptList parseShade i.indoor_shades with
      | .error e => .error e
      | .ok ins =>
        match parseOptList parseShade i.outdoor_shades with
        | .error e => .error e
        | .ok outs =>
          match i.properties with
          | none => .error .schemaError
          | some pin =>
            match parseRoomPropertiesAbridged pin with
            | .error e => .error e
            | .ok ps =>
              .ok { name := i.name, display_name := i.display_name.getD i.name,
                    faces := fs, indoor_shades := ins, outdoor_shades := outs,
                    properties := ps }
      else .error .minimumCountError
    else .error .schemaError
  else .error .nameError

/-- `.dict()` of a `Room`. -/
def serializeRoom (r : Room) : RoomInput :=
  { name := r.name, display_name := some r.display_name, type := some "Room",
    faces := r.faces.map serializeFace,
    indoor_shades := r.indoor_shades.map (List.map serializeShade),
    outdoor_shades := r.outdoor_shades.map (List.map serializeShade),
    properties := some (serializeRoomPropertiesAbridged r.properties) }

/-- The input wrote every defaultable field explicitly, recursively. -/
def RoomInput.explicit (i : RoomInput) : Bool :=
  i.display_name.isSome && i.type.isSome &&
    i.faces.all FaceInput.explicit &&
    optAll ShadeInput.explicit i.indoor_shades &&
    optAll ShadeInput.explicit i.outdoor_shades &&
    (match i.properties with
     | none => false
     | some pin => pin.explicit)

/-- Input record for `Model`. -/
structure ModelInput where
  name : String
  display_name : Option String
  type : Option String
  rooms : Option (List RoomInput)
  orphaned_faces : Option (List FaceInput)
  orphaned_shades : Option (List ShadeInput)
  orphaned_apertures : Option (List ApertureInput)
  orphaned_doors : Option (List DoorInput)
  north_angle : Option ℚ
  properties : Option ModelPropertiesInput
deriving DecidableEq, Repr

/-- Parsed `Model`. -/
structure Model where
  name : String
  display_name : String
  rooms : Option (List Room)
  orphaned_faces : Option (List Face)
  orphaned_shades : Option (List Shade)
  orphaned_apertures : Option (List Aperture)
  orphaned_doors : Option (List Door)
  north_angle : ℚ
  properties : ModelProperties
deriving DecidableEq, Repr

/-- Construction of a `Model`: name constraint, type discriminator, the five
optional entity lists (each entity recursively validated), `north_angle`
defaulting to 0 with its `ge=0, lt=360` bounds, required properties
envelope.  The `Model` class performs no further check — in particular no
cross-entity name-uniqueness check. -/
def parseModel (i : ModelInput) : Except ValidationError Model :=
  if validName i.name then
    if typeOk i.type "Model" then
    match parseOptList parseRoom i.rooms with
    | .error e => .error e
    | .ok rs =>
      match parseOptList parseFace i.orphaned_faces with
      | .error e => .error e
      | .ok ofs =>
        match parseOptList parseShade i.orphaned_shades with
        | .error e => .error e
        | .ok oss =>
          match parseOptList parseAperture i.orphaned_apertures with
          | .error e => .error e
          | .ok oas =>
            match parseOptList parseDoor i.orphaned_doors with
            | .error e => .error e
            | .ok ods =>
              if 0 ≤ i.north_angle.getD 0 ∧ i.north_angle.getD 0 < 360 then
                match i.properties with
                | none => .error .schemaError
                | some pin =>
                  match parseModelProperties pin with
                  | .error e => .error e
                  | .ok ps =>
                    .ok { name := i.name,
                          display_name := i.display_name.getD i.name,
                          rooms := rs, orphaned_faces := ofs,
                          orphaned_shades := oss, orphaned_apertures := oas,
                          orphaned_doors := ods,
                          north_angle := i.north_angle.getD 0,
                          properties := ps }
              else .error .rangeError
    else .error .schemaError
  else .error .nameError

/-- `.dict()` of a `Model`. -/
def serializeModel (m : Model) : ModelInput :=
  { name := m.name, display_name := some m.display_name,
    type := some "Model",
    rooms := m.rooms.map (List.map serializeRoom),
    orphaned_faces := m.orphaned_faces.map (List.map serializeFace),
    orphaned_shades := m.orphaned_shades.map (List.map serializeShade),
    orphaned_apertures := m.orphaned_apertures.map (List.map serializeAperture),
    orphaned_doors := m.orphaned_doors.map (List.map serializeDoor),
    north_angle := some m.north_angle,
    properties := some (serializeModelProperties m.properties) }

/-- The input wrote every defaultable field explicitly, recursively. -/
def ModelInput.explicit (i : ModelInput) : Bool :=
  i.display_name.isSome && i.type.isSome &&
    optAll RoomInput.explicit i.rooms &&
    optAll FaceInput.explicit i.orphaned_faces &&
    optAll ShadeInput.explicit i.orphaned_shades &&
    optAll ApertureInput.explicit i.orphaned_apertures &&
    optAll DoorInput.explicit i.orphaned_doors &&
    i.north_angle.isSome &&
    (match i.properties with
     | none => false
     | some pin => pin.explicit)

/-- A triangular boundary: three points of three coordinates each. -/
def triBoundary : List (List ℚ) := [[0,0,0],[1,0,0],[0,1,0]]

/-- A fully-explicit valid `Face3D` input. -/
def geomInputEx : Face3DInput :=
  { type := some "Face3D", boundary := triBoundary, holes := none, plane := none }

/-- A fully-explicit valid `Shade` input with a given name. -/
def shadeInputEx (nm : String) : ShadeInput :=
  { name := nm, display_name := some nm, type := some "Shade",
    geometry := geomInputEx,
    properties := some { type := some "ShadePropertiesAbridged", energy := none } }

/-- A fully-explicit valid `Door` input. -/
def doorInputEx : DoorInput :=
  { name := "door-1", display_name := some "door-1", type := some "Door",
    geometry := geomInputEx,
    boundary_condition := { type := "Outdoors", boundary_condition_objects := none },
    is_glass := some false,
    properties := some { type := some "DoorPropertiesAbridged", energy := none } }

/-- A fully-explicit valid `Aperture` input. -/
def apertureInputEx : ApertureInput :=
  { name := "aperture-1", display_name := some "aperture-1",
    type := some "Aperture", geometry := geomInputEx,
    boundary_condition := { type := "Outdoors", boundary_condition_objects := none },
    is_operable := some false, indoor_shades := none, outdoor_shades := none,
    properties := some { type := some "AperturePropertiesAbridged", energy := none } }

/-- A fully-explicit valid `Face` input. -/
def faceInputEx : FaceInput :=
  { name := "face-1", display_name := some "face-1", type := some "Face",
    geometry := geomInputEx, face_type := "Wall",
    boundary_condition := { type := "Outdoors", boundary_condition_objects := none },
    apertures := none, doors := none, indoor_shades := none,
    outdoor_shades := none,
    properties := some { type := some "FacePropertiesAbridged", energy := none } }

/-- A fully-explicit valid `Room` input with four faces. -/
def roomInputEx : RoomInput :=
  { name := "room-1", display_name := some "room-1", type := some "Room",
    faces := [faceInputEx, faceInputEx, faceInputEx, faceInputEx],
    indoor_shades := none, outdoor_shades := none,
    properties := some { type := some "RoomPropertiesAbridged",
                         energy := some { blob := "room-energy" } } }

/-- A fully-explicit valid `Model` input. -/
def modelInputEx : ModelInput :=
  { name := "model-1", display_name := some "model-1", type := some "Model",
    rooms := some [roomInputEx], orphaned_faces := none,
    orphaned_shades := none, orphaned_apertures := none,
    orphaned_doors := none, north_angle := some 0,
    properties := some { type := some "ModelProperties",
                         energy := some { blob := "model-energy" } } }

/-- A discriminator that checks out and is present is the literal itself. -/
theorem typeOk_eq_some (t : Option String) (s : String)
    (h1 : typeOk t s = true) (h2 : t.isSome = true) : t = some s := by
  cases t with
  | none => simp at h2
  | some v =>
    simp only [typeOk, beq_iff_eq] at h1
    rw [h1]

/-- Reattaching `some` after `getD` recovers a present optional value. -/
theorem some_getD_of_isSome {α : Type} (o : Option α) (x : α)
    (h : o.isSome = true) : some (o.getD x) = o := by
  cases o with
  | none => simp at h
  | some v => rfl

/-- The `Door` validator returns its argument unchanged on success. -/
theorem Door_suface_bc_ok_eq (v w : DoorApertureBC)
    (h : Door.suface_bc_objects v = .ok w) : w = v := by
  cases v with
  | outdoors => cases h; rfl
  | surface objs =>
    by_cases hl : (objs.length == 3) = true
    · simp only [Door.suface_bc_objects, if_pos hl] at h
      cases h; rfl
    · simp only [Door.suface_bc_objects, if_neg hl] at h
      cases h

/-- The `Aperture` validator returns its argument unchanged on success. -/
theorem Aperture_suface_bc_ok_eq (v w : DoorApertureBC)
    (h : Aperture.suface_bc_objects v = .ok w) : w = v := by
  cases v with
  | outdoors => cases h; rfl
  | surface objs =>
    by_cases hl : (objs.length == 3) = true
    · simp only [Aperture.suface_bc_objects, if_pos hl] at h
      cases h; rfl
    · simp only [Aperture.suface_bc_objects, if_neg hl] at h
      cases h

/-- The `Face` validator returns its argument unchanged on success. -/
theorem Face_suface_bc_ok_eq (v w : FaceBC)
    (h : Face.suface_bc_objects v = .ok w) : w = v := by
  cases v with
  | ground => cases h; rfl
  | outdoors => cases h; rfl
  | adiabatic => cases h; rfl
  | surface objs =>
    by_cases hl : (objs.length == 2) = true
    · simp only [Face.suface_bc_objects, if_pos hl] at h
      cases h; rfl
    · simp only [Face.suface_bc_objects, if_neg hl] at h
      cases h

/-- Elementwise round-trip lifts to `parseList`. -/
theorem parseList_roundtrip {α β : Type} (p : α → Except ValidationError β)
    (s : β → α) (e : α → Bool)
    (hrt : ∀ a b, p a = .ok b → e a = true → s b = a) :
    ∀ (l : List α) (l2 : List β), parseList p l = .ok l2 → l.all e = true →
      l2.map s = l := by
  intro l
  induction l with
  | nil =>
    intro l2 hp _
    cases hp
    rfl
  | cons a as ih =>
    intro l2 hp ha
    simp only [parseList] at hp
    cases hpa : p a with
    | error e2 =>
      rw [hpa] at hp
      cases hp
    | ok b =>
      rw [hpa] at hp
      cases hrest : parseList p as with
      | error e2 =>
        rw [hrest] at hp
        cases hp
      | ok bs =>
        rw [hrest] at hp
        cases hp
        simp only [List.all_cons, Bool.and_eq_true] at ha
        simp only [List.map]
        rw [hrt a b hpa ha.1, ih bs hrest ha.2]

/-- Elementwise round-trip lifts to `parseOptList`. -/
theorem parseOptList_roundtrip {α β : Type} (p : α → Except ValidationError β)
    (s : β → α) (e : α → Bool)
    (hrt : ∀ a b, p a = .ok b → e a = true → s b = a) :
    ∀ (o : Option (List α)) (o2 : Option (List β)),
      parseOptList p o = .ok o2 → optAll e o = true →
      o2.map (List.map s) = o := by
  intro o o2 hp ha
  cases o with
  | none =>
    cases hp
    rfl
  | some l =>
    simp only [parseOptList] at hp
    cases hl : parseList p l with
    | error e2 =>
      rw [hl] at hp
      cases hp
    | ok bs =>
      rw [hl] at hp
      cases hp
      simp only [optAll] at ha
      simp only [Option.map]
      rw [parseList_roundtrip p s e hrt l bs hl ha]

/-- Round-trip for `Plane`: serializing a parsed fully-explicit input
reproduces the input. -/
theorem parsePlane_roundtrip (i : PlaneInput) (p : Plane)
    (hp : parsePlane i = .ok p) (he : PlaneInput.explicit i = true) :
    serializePlane p = i := by
  obtain ⟨t, nf, of, xf⟩ := i
  simp only [PlaneInput.explicit] at he
  obtain ⟨tv, rfl⟩ := Option.isSome_iff_exists.mp he
  cases xf with
  | none =>
    simp only [parsePlane] at hp
    split at hp
    case isTrue h1 =>
      have ht : tv = "Plane" := by
        simpa [typeOk] using h1
      subst ht
      split at hp
      case isTrue h2 =>
        split at hp
        case isTrue h3 =>
          cases hp
          rfl
        case isFalse h3 => cases hp
      case isFalse h2 => cases hp
    case isFalse h1 => cases hp
  | some xv =>
    simp only [parsePlane] at hp
    split at hp
    case isTrue h1 =>
      have ht : tv = "Plane" := by
        simpa [typeOk] using h1
      subst ht
      split at hp
      case isTrue h2 =>
        split at hp
        case isTrue h3 =>
          split at hp
          case isTrue h4 =>
            cases hp
            rfl
          case isFalse h4 => cases hp
        case isFalse h3 => cases hp
      case isFalse h2 => cases hp
    case isFalse h1 => cases hp

/-- The boundary validator returns its argument unchanged on success. -/
theorem check_num_items_ok_eq (v w : List (List ℚ))
    (h : Face3D.check_num_items v = .ok w) : w = v := by
  simp only [Face3D.check_num_items] at h
  split at h
  · cases h; rfl
  · cases h

/-- The holes validator returns its argument unchanged on success. -/
theorem check_num_items_holes_ok_eq (v w : List (List (List ℚ)))
    (h : Face3D.check_num_items_holes v = .ok w) : w = v := by
  simp only [Face3D.check_num_items_holes] at h
  split at h
  · cases h; rfl
  · cases h

/-- Round-trip for `Face3D`. -/
theorem parseFace3D_roundtrip (i : Face3DInput) (f : Face3D)
    (hp : parseFace3D i = .ok f) (he : Face3DInput.explicit i = true) :
    serializeFace3D f = i := by
  obtain ⟨t, bf, hf, pf⟩ := i
  simp only [Face3DInput.explicit, Bool.and_eq_true] at he
  obtain ⟨he1, he2⟩ := he
  obtain ⟨tv, rfl⟩ := Option.isSome_iff_exists.mp he1
  simp only [parseFace3D] at hp
  split at hp
  case isFalse h1 => cases hp
  case isTrue h1 =>
    have ht : tv = "Face3D" := by
      simpa [typeOk] using h1
    subst ht
    split at hp
    · cases hp
    · rename_i b hb
      have hbe : b = bf := check_num_items_ok_eq bf b hb
      subst hbe
      split at hp
      · split at hp
        · cases hp
          rfl
        · rename_i pin
          split at hp
          · cases hp
          · rename_i p hpp
            cases hp
            have hrt := parsePlane_roundtrip pin p hpp (by simpa using he2)
            simp [serializeFace3D, hrt]
      · rename_i hs
        split at hp
        · cases hp
        · rename_i hs2 hh
          have hhe : hs2 = hs := check_num_items_holes_ok_eq hs hs2 hh
          subst hhe
          split at hp
          · cases hp
            rfl
          · rename_i pin
            split at hp
            · cases hp
            · rename_i p hpp
              cases hp
              have hrt := parsePlane_roundtrip pin p hpp (by simpa using he2)
              simp [serializeFace3D, hrt]

/-- Round-trip for the door/aperture boundary-condition union. -/
theorem parseDoorApertureBC_roundtrip (b : BCInput) (v : DoorApertureBC)
    (hp : parseDoorApertureBC b = .ok v) (he : BCInput.explicit b = true) :
    serializeDoorApertureBC v = b := by
  obtain ⟨t, objs⟩ := b
  simp only [parseDoorApertureBC] at hp
  split at hp
  case isTrue h1 =>
    cases hp
    have ht : t = "Outdoors" := by
      simpa using h1
    subst ht
    simp only [BCInput.explicit] at he
    have hobjs : objs = none := by
      rcases objs with _ | o
      · rfl
      · simp at he
    subst hobjs
    rfl
  case isFalse h1 =>
    split at hp
    case isTrue h2 =>
      have ht : t = "Surface" := by
        simpa using h2
      subst ht
      cases objs with
      | none => cases hp
      | some l =>
        cases hp
        rfl
    case isFalse h2 => cases hp

/-- Round-trip for the face boundary-condition union. -/
theorem parseFaceBC_roundtrip (b : BCInput) (v : FaceBC)
    (hp : parseFaceBC b = .ok v) (he : BCInput.explicit b = true) :
    serializeFaceBC v = b := by
  obtain ⟨t, objs⟩ := b
  simp only [parseFaceBC] at hp
  split at hp
  case isTrue h1 =>
    cases hp
    have ht : t = "Ground" := by
      simpa using h1
    subst ht
    simp only [BCInput.explicit] at he
    have hobjs : objs = none := by
      rcases objs with _ | o
      · rfl
      · simp at he
    subst hobjs
    rfl
  case isFalse h1 =>
    split at hp
    case isTrue h2 =>
      cases hp
      have ht : t = "Outdoors" := by
        simpa using h2
      subst ht
      simp only [BCInput.explicit] at he
      have hobjs : objs = none := by
        rcases objs with _ | o
        · rfl
        · simp at he
      subst hobjs
      rfl
    case isFalse h2 =>
      split at hp
      case isTrue h3 =>
        cases hp
        have ht : t = "Adiabatic" := by
          simpa using h3
        subst ht
        simp only [BCInput.explicit] at he
        have hobjs : objs = none := by
          rcases objs with _ | o
          · rfl
          · simp at he
        subst hobjs
        rfl
      case isFalse h3 =>
        split at hp
        case isTrue h4 =>
          have ht : t = "Surface" := by
            simpa using h4
          subst ht
          cases objs with
          | none => cases hp
          | some l =>
            cases hp
            rfl
        case isFalse h4 => cases hp

/-- Round-trip for `ShadePropertiesAbridged`. -/
theorem parseShadePropertiesAbridged_roundtrip (i : ShadePropertiesAbridgedInput)
    (v : ShadePropertiesAbridged) (hp : parseShadePropertiesAbridged i = .ok v)
    (he : ShadePropertiesAbridgedInput.explicit i = true) :
    serializeShadePropertiesAbridged v = i := by
  obtain ⟨t, en⟩ := i
  simp only [ShadePropertiesAbridgedInput.explicit] at he
  obtain ⟨tv, rfl⟩ := Option.isSome_iff_exists.mp he
  simp only [parseShadePropertiesAbridged] at hp
  split at hp
  case isTrue h1 =>
    cases hp
    have ht : tv = "ShadePropertiesAbridged" := by
      simpa [typeOk] using h1
    subst ht
    rfl
  case isFalse h1 => cases hp

/-- Round-trip for `DoorPropertiesAbridged`. -/
theorem parseDoorPropertiesAbridged_roundtrip (i : DoorPropertiesAbridgedInput)
    (v : DoorPropertiesAbridged) (hp : parseDoorPropertiesAbridged i = .ok v)
    (he : DoorPropertiesAbridgedInput.explicit i = true) :
    serializeDoorPropertiesAbridged v = i := by
  obtain ⟨t, en⟩ := i
  simp only [DoorPropertiesAbridgedInput.explicit] at he
  obtain ⟨tv, rfl⟩ := Option.isSome_iff_exists.mp he
  simp only [parseDoorPropertiesAbridged] at hp
  split at hp
  case isTrue h1 =>
    cases hp
    have ht : tv = "DoorPropertiesAbridged" := by
      simpa [typeOk] using h1
    subst ht
    rfl
  case isFalse h1 => cases hp

/-- Round-trip for `AperturePropertiesAbridged`. -/
theorem parseAperturePropertiesAbridged_roundtrip
    (i : AperturePropertiesAbridgedInput) (v : AperturePropertiesAbridged)
    (hp : parseAperturePropertiesAbridged i = .ok v)
    (he : AperturePropertiesAbridgedInput.explicit i = true) :
    serializeAperturePropertiesAbridged v = i := by
  obtain ⟨t, en⟩ := i
  simp only [AperturePropertiesAbridgedInput.explicit] at he
  obtain ⟨tv, rfl⟩ := Option.isSome_iff_exists.mp he
  simp only [parseAperturePropertiesAbridged] at hp
  split at hp
  case isTrue h1 =>
    cases hp
    have ht : tv = "AperturePropertiesAbridged" := by
      simpa [typeOk] using h1
    subst ht
    rfl
  case isFalse h1 => cases hp

/-- Round-trip for `FacePropertiesAbridged`. -/
theorem parseFacePropertiesAbridged_roundtrip (i : FacePropertiesAbridgedInput)
    (v : FacePropertiesAbridged) (hp : parseFacePropertiesAbridged i = .ok v)
    (he : FacePropertiesAbridgedInput.explicit i = true) :
    serializeFacePropertiesAbridged v = i := by
  obtain ⟨t, en⟩ := i
  simp only [FacePropertiesAbridgedInput.explicit] at he
  obtain ⟨tv, rfl⟩ := Option.isSome_iff_exists.mp he
  simp only [parseFacePropertiesAbridged] at hp
  split at hp
  case isTrue h1 =>
    cases hp
    have ht : tv = "FacePropertiesAbridged" := by
      simpa [typeOk] using h1
    subst ht
    rfl
  case isFalse h1 => cases hp

/-- Round-trip for `RoomPropertiesAbridged`. -/
theorem parseRoomPropertiesAbridged_roundtrip (i : RoomPropertiesAbridgedInput)
    (v : RoomPropertiesAbridged) (hp : parseRoomPropertiesAbridged i = .ok v)
    (he : RoomPropertiesAbridgedInput.explicit i = true) :
    serializeRoomPropertiesAbridged v = i := by
  obtain ⟨t, en⟩ := i
  simp only [RoomPropertiesAbridgedInput.explicit] at he
  obtain ⟨tv, rfl⟩ := Option.isSome_iff_exists.mp he
  simp only [parseRoomPropertiesAbridged] at hp
  split at hp
  case isTrue h1 =>
    have ht : tv = "RoomPropertiesAbridged" := by
      simpa [typeOk] using h1
    subst ht
    cases en with
    | none => cases hp
    | some e =>
      cases hp
      rfl
  case isFalse h1 => cases hp

/-- Round-trip for `ModelProperties`. -/
theorem parseModelProperties_roundtrip (i : ModelPropertiesInput)
    (v : ModelProperties) (hp : parseModelProperties i = .ok v)
    (he : ModelPropertiesInput.explicit i = true) :
    serializeModelProperties v = i := by
  obtain ⟨t, en⟩ := i
  simp only [ModelPropertiesInput.explicit] at he
  obtain ⟨tv, rfl⟩ := Option.isSome_iff_exists.mp he
  simp only [parseModelProperties] at hp
  split at hp
  case isTrue h1 =>
    have ht : tv = "ModelProperties" := by
      simpa [typeOk] using h1
    subst ht
    cases en with
    | none => cases hp
    | some e =>
      cases hp
      rfl
  case isFalse h1 => cases hp

/-- Round-trip for `Shade`. -/
theorem parseShade_roundtrip (i : ShadeInput) (v : Shade)
    (hp : parseShade i = .ok v) (he : ShadeInput.explicit i = true) :
    serializeShade v = i := by
  obtain ⟨nm, dn, t, geo, props⟩ := i
  simp only [ShadeInput.explicit, Bool.and_eq_true] at he
  obtain ⟨⟨⟨hdn, ht⟩, hgeo⟩, hprops⟩ := he
  obtain ⟨dnv, rfl⟩ := Option.isSome_iff_exists.mp hdn
  obtain ⟨tv, rfl⟩ := Option.isSome_iff_exists.mp ht
  simp only [parseShade] at hp
  split at hp
  case isFalse h1 => cases hp
  case isTrue h1 =>
    split at hp
    case isFalse h2 => cases hp
    case isTrue h2 =>
      have htv : tv = "Shade" := by
        simpa [typeOk] using h2
      subst htv
      split at hp
      · cases hp
      · rename_i g hg
        split at hp
        · cases hp
        · rename_i pin
          split at hp
          · cases hp
          · rename_i ps hps
            cases hp
            have h3 := parseFace3D_roundtrip geo g hg hgeo
            have h4 := parseShadePropertiesAbridged_roundtrip pin ps hps
              (by simpa using hprops)
            simp [serializeShade, h3, h4]

/-- Round-trip for `Door`. -/
theorem parseDoor_roundtrip (i : DoorInput) (v : Door)
    (hp : parseDoor i = .ok v) (he : DoorInput.explicit i = true) :
    serializeDoor v = i := by
  obtain ⟨nm, dn, t, geo, bc, ig, props⟩ := i
  simp only [DoorInput.explicit, Bool.and_eq_true] at he
  obtain ⟨⟨⟨⟨⟨hdn, ht⟩, hgeo⟩, hbc⟩, hig⟩, hprops⟩ := he
  obtain ⟨dnv, rfl⟩ := Option.isSome_iff_exists.mp hdn
  obtain ⟨tv, rfl⟩ := Option.isSome_iff_exists.mp ht
  obtain ⟨igv, rfl⟩ := Option.isSome_iff_exists.mp hig
  simp only [parseDoor] at hp
  split at hp
  case isFalse h1 => cases hp
  case isTrue h1 =>
    split at hp
    case isFalse h2 => cases hp
    case isTrue h2 =>
      have htv : tv = "Door" := by
        simpa [typeOk] using h2
      subst htv
      split at hp
      · cases hp
      · rename_i g hg
        split at hp
        · cases hp
        · rename_i bc0 hbc0
          split at hp
          · cases hp
          · rename_i bc1 hbc1
            have hbe : bc1 = bc0 := Door_suface_bc_ok_eq bc0 bc1 hbc1
            subst hbe
            split at hp
            · cases hp
            · rename_i pin
              split at hp
              · cases hp
              · rename_i ps hps
                cases hp
                have h3 := parseFace3D_roundtrip geo g hg hgeo
                have h4 := parseDoorApertureBC_roundtrip bc bc1 hbc0 hbc
                have h5 := parseDoorPropertiesAbridged_roundtrip pin ps hps
                  (by simpa using hprops)
                simp [serializeDoor, h3, h4, h5]

/-- Round-trip for `Aperture`. -/
theorem parseAperture_roundtrip (i : ApertureInput) (v : Aperture)
    (hp : parseAperture i = .ok v) (he : ApertureInput.explicit i = true) :
    serializeAperture v = i := by
  obtain ⟨nm, dn, t, geo, bc, io, ins, outs, props⟩ := i
  simp only [ApertureInput.explicit, Bool.and_eq_true] at he
  obtain ⟨⟨⟨⟨⟨⟨⟨hdn, ht⟩, hgeo⟩, hbc⟩, hio⟩, hins⟩, houts⟩, hprops⟩ := he
  obtain ⟨dnv, rfl⟩ := Option.isSome_iff_exists.mp hdn
  obtain ⟨tv, rfl⟩ := Option.isSome_iff_exists.mp ht
  obtain ⟨iov, rfl⟩ := Option.isSome_iff_exists.mp hio
  simp only [parseAperture] at hp
  split at hp
  case isFalse h1 => cases hp
  case isTrue h1 =>
    split at hp
    case isFalse h2 => cases hp
    case isTrue h2 =>
      have htv : tv = "Aperture" := by
        simpa [typeOk] using h2
      subst htv
      split at hp
      · cases hp
      · rename_i g hg
        split at hp
        · cases hp
        · rename_i bc0 hbc0
          split at hp
          · cases hp
          · rename_i bc1 hbc1
            have hbe : bc1 = bc0 := Aperture_suface_bc_ok_eq bc0 bc1 hbc1
            subst hbe
            split at hp
            · cases hp
            · rename_i insp hinsp
              split at hp
              · cases hp
              · rename_i outsp houtsp
                split at hp
                · cases hp
                · rename_i pin
                  split at hp
                  · cases hp
                  · rename_i ps hps
                    cases hp
                    have h3 := parseFace3D_roundtrip geo g hg hgeo
                    have h4 := parseDoorApertureBC_roundtrip bc bc1 hbc0 hbc
                    have h5 := parseOptList_roundtrip parseShade serializeShade
                      ShadeInput.explicit parseShade_roundtrip ins insp hinsp hins
                    have h6 := parseOptList_roundtrip parseShade serializeShade
                      ShadeInput.explicit parseShade_roundtrip outs outsp houtsp houts
                    have h7 := parseAperturePropertiesAbridged_roundtrip pin ps hps
                      (by simpa using hprops)
                    simp [serializeAperture, h3, h4, h5, h6, h7]

/-- A parsed `FaceType` serializes back to the string it was parsed from. -/
theorem parseFaceType_roundtrip (s : String) (ft : FaceType)
    (hp : parseFaceType s = .ok ft) : serializeFaceType ft = s := by
  simp only [parseFaceType] at hp
  split at hp
  case isTrue h1 =>
    cases hp
    have hv : s = "Wall" := by simpa using h1
    simp [serializeFaceType, hv]
  case isFalse h1 =>
    split at hp
    case isTrue h2 =>
      cases hp
      have hv : s = "Floor" := by simpa using h2
      simp [serializeFaceType, hv]
    case isFalse h2 =>
      split at hp
      case isTrue h3 =>
        cases hp
        have hv : s = "RoofCeiling" := by simpa using h3
        simp [serializeFaceType, hv]
      case isFalse h3 =>
        split at hp
        case isTrue h4 =>
          cases hp
          have hv : s = "AirWall" := by simpa using h4
          simp [serializeFaceType, hv]
        case isFalse h4 => cases hp

/-- Round-trip for `Face`. -/
theorem parseFace_roundtrip (i : FaceInput) (v : Face)
    (hp : parseFace i = .ok v) (he : FaceInput.explicit i = true) :
    serializeFace v = i := by
  obtain ⟨nm, dn, t, geo, fts, bc, aps, drs, ins, outs, props⟩ := i
  simp only [FaceInput.explicit, Bool.and_eq_true] at he
  obtain ⟨⟨⟨⟨⟨⟨⟨⟨hdn, ht⟩, hgeo⟩, hbc⟩, haps⟩, hdrs⟩, hins⟩, houts⟩, hprops⟩ := he
  obtain ⟨dnv, rfl⟩ := Option.isSome_iff_exists.mp hdn
  obtain ⟨tv, rfl⟩ := Option.isSome_iff_exists.mp ht
  simp only [parseFace] at hp
  split at hp
  case isFalse h1 => cases hp
  case isTrue h1 =>
    split at hp
    case isFalse h2 => cases hp
    case isTrue h2 =>
      have htv : tv = "Face" := by
        simpa [typeOk] using h2
      subst htv
      split at hp
      · cases hp
      · rename_i g hg
        split at hp
        · cases hp
        · rename_i ft hft
          split at hp
          · cases hp
          · rename_i bc0 hbc0
            split at hp
            · cases hp
            · rename_i bc1 hbc1
              have hbe : bc1 = bc0 := Face_suface_bc_ok_eq bc0 bc1 hbc1
              subst hbe
              split at hp
              · cases hp
              · rename_i apsp hapsp
                split at hp
                · cases hp
                · rename_i drsp hdrsp
                  split at hp
                  · cases hp
                  · rename_i insp hinsp
                    split at hp
                    · cases hp
                    · rename_i outsp houtsp
                      split at hp
                      · cases hp
                      · rename_i pin
                        split at hp
                        · cases hp
                        · rename_i ps hps
                          cases hp
                          have h3 := parseFace3D_roundtrip geo g hg hgeo
                          have h4 := parseFaceType_roundtrip fts ft hft
                          have h5 := parseFaceBC_roundtrip bc bc1 hbc0 hbc
                          have h6 := parseOptList_roundtrip parseAperture
                            serializeAperture ApertureInput.explicit
                            parseAperture_roundtrip aps apsp hapsp haps
                          have h7 := parseOptList_roundtrip parseDoor
                            serializeDoor DoorInput.explicit
                            parseDoor_roundtrip drs drsp hdrsp hdrs
                          have h8 := parseOptList_roundtrip parseShade
                            serializeShade ShadeInput.explicit
                            parseShade_roundtrip ins insp hinsp hins
                          have h9 := parseOptList_roundtrip parseShade
                            serializeShade ShadeInput.explicit
                            parseShade_roundtrip outs outsp houtsp houts
                          have h10 := parseFacePropertiesAbridged_roundtrip pin ps
                            hps (by simpa using hprops)
                          simp [serializeFace, h3, h4, h5, h6, h7, h8, h9, h10]

/-- Round-trip for `Room`. -/
theorem parseRoom_roundtrip (i : RoomInput) (v : Room)
    (hp : parseRoom i = .ok v) (he : RoomInput.explicit i = true) :
    serializeRoom v = i := by
  obtain ⟨nm, dn, t, fcs, ins, outs, props⟩ := i
  simp only [RoomInput.explicit, Bool.and_eq_true] at he
  obtain ⟨⟨⟨⟨⟨hdn, ht⟩, hfcs⟩, hins⟩, houts⟩, hprops⟩ := he
  obtain ⟨dnv, rfl⟩ := Option.isSome_iff_exists.mp hdn
  obtain ⟨tv, rfl⟩ := Option.isSome_iff_exists.mp ht
  simp only [parseRoom] at hp
  split at hp
  case isFalse h1 => cases hp
  case isTrue h1 =>
    split at hp
    case isFalse h2 => cases hp
    case isTrue h2 =>
      have htv : tv = "Room" := by
        simpa [typeOk] using h2
      subst htv
      split at hp
      case isFalse h3 => cases hp
      case isTrue h3 =>
        split at hp
        · cases hp
        · rename_i fsp hfsp
          split at hp
          · cases hp
          · rename_i insp hinsp
            split at hp
            · cases hp
            · rename_i outsp houtsp
              split at hp
              · cases hp
              · rename_i pin
                split at hp
                · cases hp
                · rename_i ps hps
                  cases hp
                  have h4 := parseList_roundtrip parseFace serializeFace
                    FaceInput.explicit parseFace_roundtrip fcs fsp hfsp hfcs
                  have h5 := parseOptList_roundtrip parseShade serializeShade
                    ShadeInput.explicit parseShade_roundtrip ins insp hinsp hins
                  have h6 := parseOptList_roundtrip parseShade serializeShade
                    ShadeInput.explicit parseShade_roundtrip outs outsp houtsp houts
                  have h7 := parseRoomPropertiesAbridged_roundtrip pin ps hps
                    (by simpa using hprops)
                  simp [serializeRoom, h4, h5, h6, h7]

/-- Parsed form of `geomInputEx`. -/
def geomParsedEx : Face3D :=
  { boundary := triBoundary, holes := none, plane := none }

/-- `parsePlane` never emits the point-arity error: its failures are the
discriminator and the `min_items`/`max_items` constraints. -/
theorem parsePlane_no_geometryError (i : PlaneInput) (e : ValidationError)
    (hp : parsePlane i = .error e) : e ≠ .geometryError := by
  simp only [parsePlane] at hp
  split at hp
  case isFalse h1 =>
    cases hp
    simp
  case isTrue h1 =>
    split at hp
    case isFalse h2 =>
      cases hp
      simp
    case isTrue h2 =>
      split at hp
      case isFalse h3 =>
        cases hp
        simp
      case isTrue h3 =>
        split at hp
        · cases hp
        · split at hp
          · cases hp
          · cases hp
            simp

/-- C3: the spec requires a `Face3D` boundary of at least 3 points, and the
`boundary` field description in the source says the same, but the field
carries no `min_items` constraint and `check_num_items` only checks per-point
arity: a two-point boundary is accepted. -/
theorem C3_two_point_boundary_accepted :
    parseFace3D { type := some "Face3D", boundary := [[0,0,0],[1,0,0]],
                  holes := none, plane := none } =
      .ok { boundary := [[0,0,0],[1,0,0]], holes := none, plane := none } := by
  decide

/-- C10: the holes validator checks only per-point coordinate arity, never a
per-loop point count: replacing the holes of any successfully parsed `Face3D`
input with any list of loops whose points all have 3 coordinates — including
empty loops and single-point loops — still parses successfully. -/
theorem C10_hole_loops_unchecked (i : Face3DInput) (f : Face3D)
    (hp : parseFace3D i = .ok f) (hl : List (List (List ℚ)))
    (hpts : hl.all (fun l => l.all (fun pt => pt.length == 3)) = true) :
    (parseFace3D { i with holes := some hl }).toOption.isSome = true := by
  obtain ⟨t, bf, hf, pf⟩ := i
  simp only [parseFace3D] at hp ⊢
  split at hp
  case isFalse h1 => cases hp
  case isTrue h1 =>
    rw [if_pos h1]
    split at hp
    · cases hp
    · rename_i b hb
      have hch : Face3D.check_num_items_holes hl = .ok hl := by
        simp [Face3D.check_num_items_holes, hpts]
      simp only [hch]
      split at hp
      · split at hp
        · cases hp
          rfl
        · rename_i pin
          split at hp
          · cases hp
          · rename_i p hpp
            cases hp
            rfl
      · rename_i hs
        split at hp
        · cases hp
        · rename_i hs2 hh
          split at hp
          · cases hp
            rfl
          · rename_i pin
            split at hp
            · cases hp
            · rename_i p hpp
              cases hp
              rfl

/-- C10 witness: a single-point hole loop (all points 3-coordinate) is
accepted on a valid triangle. -/
theorem C10_hole_loops_unchecked_witness :
    (parseFace3D { geomInputEx with holes := some [[[0,0,0]]] }).toOption.isSome
      = true :=
  C10_hole_loops_unchecked geomInputEx geomParsedEx (by decide) [[[0,0,0]]]
    (by decide)

/-- C5: with a valid type discriminator, a point of arity other than 3
anywhere in the boundary or the holes makes `Face3D` construction fail with
the point-arity error; and when every point has exactly 3 coordinates,
construction never fails with the point-arity error. -/
theorem C5_point_arity :
    (∀ i : Face3DInput, typeOk i.type "Face3D" = true →
        ¬ (i.boundary.all (fun pt => pt.length == 3) = true ∧
            optAll (fun l => l.all (fun pt => pt.length == 3)) i.holes = true) →
        parseFace3D i = .error .geometryError) ∧
    (∀ i : Face3DInput,
        i.boundary.all (fun pt => pt.length == 3) = true →
        optAll (fun l => l.all (fun pt => pt.length == 3)) i.holes = true →
        parseFace3D i ≠ .error .geometryError) := by
  constructor
  · intro i ht hbad
    obtain ⟨t, bf, hf, pf⟩ := i
    by_cases hb : bf.all (fun pt => pt.length == 3) = true
    · have hh : ¬ optAll (fun l => l.all (fun pt => pt.length == 3)) hf = true :=
        fun hh => hbad ⟨hb, hh⟩
      cases hf with
      | none => exact absurd rfl hh
      | some hs =>
        have hh2 : (hs.all (fun l => l.all (fun pt => pt.length == 3))) = false := by
          have : ¬ hs.all (fun l => l.all (fun pt => pt.length == 3)) = true := by
            simpa [optAll] using hh
          rwa [Bool.not_eq_true] at this
        simp [parseFace3D, ht, Face3D.check_num_items, hb,
          Face3D.check_num_items_holes, hh2]
    · have hb2 : (bf.all (fun pt => pt.length == 3)) = false := by
        rwa [Bool.not_eq_true] at hb
      simp [parseFace3D, ht, Face3D.check_num_items, hb2]
  · intro i hbok hhok heq
    obtain ⟨t, bf, hf, pf⟩ := i
    simp only [parseFace3D] at heq
    split at heq
    case isFalse h1 => simp at heq
    case isTrue h1 =>
      split at heq
      · rename_i e hce
        simp only [Face3D.check_num_items] at hce
        rw [if_pos hbok] at hce
        cases hce
      · rename_i b hbo
        split at heq
        · split at heq
          · cases heq
          · rename_i pin
            split at heq
            · rename_i e hpp
              cases heq
              exact parsePlane_no_geometryError pin _ hpp rfl
            · cases heq
        · rename_i hs
          split at heq
          · rename_i e hhe
            simp only [Face3D.check_num_items_holes] at hhe
            rw [if_pos (by simpa [optAll] using hhok)] at hhe
            cases hhe
          · rename_i hs2 hh
            split at heq
            · cases heq
            · rename_i pin
              split at heq
              · rename_i e hpp
                cases heq
                exact parsePlane_no_geometryError pin _ hpp rfl
              · cases heq

/-- C5 witness: a 2-coordinate boundary point triggers the point-arity error;
an all-3-coordinate triangle never produces it. -/
theorem C5_point_arity_witness :
    parseFace3D { type := some "Face3D", boundary := [[0,0]], holes := none,
                  plane := none } = .error .geometryError ∧
    parseFace3D geomInputEx ≠ .error .geometryError :=
  ⟨C5_point_arity.1 _ (by decide) (by decide),
   C5_point_arity.2 geomInputEx (by decide) (by decide)⟩

/-- A successful `Face` validator run on a `Surface` forces arity 2. -/
theorem Face_surface_arity_of_ok (objs : List String) (w : FaceBC)
    (h : Face.suface_bc_objects (.surface objs) = .ok w) : objs.length = 2 := by
  by_cases hl : (objs.length == 2) = true
  · simpa using hl
  · simp only [Face.suface_bc_objects, if_neg hl] at h
    cases h

/-- A successful `Aperture` validator run on a `Surface` forces arity 3. -/
theorem Aperture_surface_arity_of_ok (objs : List String) (w : DoorApertureBC)
    (h : Aperture.suface_bc_objects (.surface objs) = .ok w) : objs.length = 3 := by
  by_cases hl : (objs.length == 3) = true
  · simpa using hl
  · simp only [Aperture.suface_bc_objects, if_neg hl] at h
    cases h

/-- A successful `Door` validator run on a `Surface` forces arity 3. -/
theorem Door_surface_arity_of_ok (objs : List String) (w : DoorApertureBC)
    (h : Door.suface_bc_objects (.surface objs) = .ok w) : objs.length = 3 := by
  by_cases hl : (objs.length == 3) = true
  · simpa using hl
  · simp only [Door.suface_bc_objects, if_neg hl] at h
    cases h

/-- C1: for a `Surface` boundary condition the `suface_bc_objects` validator
fails with the adjacency-arity error unless `boundary_condition_objects` has
length exactly 2 for a `Face` and exactly 3 for an `Aperture` or a `Door`
(so any successfully constructed entity with a `Surface` input has that
arity), while `Ground`, `Outdoors` and `Adiabatic` boundary conditions always
pass the owner's check. -/
theorem C1_surface_bc_arity :
    (∀ objs : List String, objs.length ≠ 2 →
        Face.suface_bc_objects (.surface objs) = .error .adjacencyArityError) ∧
    (∀ objs : List String, objs.length = 2 →
        Face.suface_bc_objects (.surface objs) = .ok (.surface objs)) ∧
    (∀ objs : List String, objs.length ≠ 3 →
        Aperture.suface_bc_objects (.surface objs) = .error .adjacencyArityError) ∧
    (∀ objs : List String, objs.length = 3 →
        Aperture.suface_bc_objects (.surface objs) = .ok (.surface objs)) ∧
    (∀ objs : List String, objs.length ≠ 3 →
        Door.suface_bc_objects (.surface objs) = .error .adjacencyArityError) ∧
    (∀ objs : List String, objs.length = 3 →
        Door.suface_bc_objects (.surface objs) = .ok (.surface objs)) ∧
    (Face.suface_bc_objects .ground = .ok .ground ∧
      Face.suface_bc_objects .outdoors = .ok .outdoors ∧
      Face.suface_bc_objects .adiabatic = .ok .adiabatic ∧
      Aperture.suface_bc_objects .outdoors = .ok .outdoors ∧
      Door.suface_bc_objects .outdoors = .ok .outdoors) ∧
    (∀ (i : FaceInput) (f : Face) (objs : List String), parseFace i = .ok f →
        i.boundary_condition =
          { type := "Surface", boundary_condition_objects := some objs } →
        objs.length = 2) ∧
    (∀ (i : ApertureInput) (a : Aperture) (objs : List String),
        parseAperture i = .ok a →
        i.boundary_condition =
          { type := "Surface", boundary_condition_objects := some objs } →
        objs.length = 3) ∧
    (∀ (i : DoorInput) (d : Door) (objs : List String), parseDoor i = .ok d →
        i.boundary_condition =
          { type := "Surface", boundary_condition_objects := some objs } →
        objs.length = 3) := by
  refine ⟨?_, ?_, ?_, ?_, ?_, ?_, ⟨rfl, rfl, rfl, rfl, rfl⟩, ?_, ?_, ?_⟩
  · intro objs h
    have hb : (objs.length == 2) = false := by simpa using h
    simp [Face.suface_bc_objects, hb]
  · intro objs h
    have hb : (objs.length == 2) = true := by simpa using h
    simp [Face.suface_bc_objects, hb]
  · intro objs h
    have hb : (objs.length == 3) = false := by simpa using h
    simp [Aperture.suface_bc_objects, hb]
  · intro objs h
    have hb : (objs.length == 3) = true := by simpa using h
    simp [Aperture.suface_bc_objects, hb]
  · intro objs h
    have hb : (objs.length == 3) = false := by simpa using h
    simp [Door.suface_bc_objects, hb]
  · intro objs h
    have hb : (objs.length == 3) = true := by simpa using h
    simp [Door.suface_bc_objects, hb]
  · intro i f objs hp hbc
    obtain ⟨nm, dn, t, geo, fts, bc, aps, drs, ins, outs, props⟩ := i
    simp only at hbc
    subst hbc
    simp only [parseFace] at hp
    split at hp
    case isFalse h1 => cases hp
    case isTrue h1 =>
      split at hp
      case isFalse h2 => cases hp
      case isTrue h2 =>
        split at hp
        · cases hp
        · rename_i g hg
          split at hp
          · cases hp
          · rename_i ft hft
            split at hp
            · rename_i e heq
              have hc : parseFaceBC
                  { type := "Surface", boundary_condition_objects := some objs } =
                  .ok (.surface objs) := rfl
              rw [hc] at heq
              cases heq
            · rename_i bc0 hbc0
              have hc : parseFaceBC
                  { type := "Surface", boundary_condition_objects := some objs } =
                  .ok (.surface objs) := rfl
              rw [hc] at hbc0
              cases hbc0
              split at hp
              · cases hp
              · rename_i bc1 hbc1
                exact Face_surface_arity_of_ok objs bc1 hbc1
  · intro i a objs hp hbc
    obtain ⟨nm, dn, t, geo, bc, io, ins, outs, props⟩ := i
    simp only at hbc
    subst hbc
    simp only [parseAperture] at hp
    split at hp
    case isFalse h1 => cases hp
    case isTrue h1 =>
      split at hp
      case isFalse h2 => cases hp
      case isTrue h2 =>
        split at hp
        · cases hp
        · rename_i g hg
          split at hp
          · rename_i e heq
            have hc : parseDoorApertureBC
                { type := "Surface", boundary_condition_objects := some objs } =
                .ok (.surface objs) := rfl
            rw [hc] at heq
            cases heq
          · rename_i bc0 hbc0
            have hc : parseDoorApertureBC
                { type := "Surface", boundary_condition_objects := some objs } =
                .ok (.surface objs) := rfl
            rw [hc] at hbc0
            cases hbc0
            split at hp
            · cases hp
            · rename_i bc1 hbc1
              exact Aperture_surface_arity_of_ok objs bc1 hbc1
  · intro i d objs hp hbc
    obtain ⟨nm, dn, t, geo, bc, ig, props⟩ := i
    simp only at hbc
    subst hbc
    simp only [parseDoor] at hp
    split at hp
    case isFalse h1 => cases hp
    case isTrue h1 =>
      split at hp
      case isFalse h2 => cases hp
      case isTrue h2 =>
        split at hp
        · cases hp
        · rename_i g hg
          split at hp
          · rename_i e heq
            have hc : parseDoorApertureBC
                { type := "Surface", boundary_condition_objects := some objs } =
                .ok (.surface objs) := rfl
            rw [hc] at heq
            cases heq
          · rename_i bc0 hbc0
            have hc : parseDoorApertureBC
                { type := "Surface", boundary_condition_objects := some objs } =
                .ok (.surface objs) := rfl
            rw [hc] at hbc0
            cases hbc0
            split at hp
            · cases hp
            · rename_i bc1 hbc1
              exact Door_surface_arity_of_ok objs bc1 hbc1

/-- `faceInputEx` with a two-object `Surface` boundary condition. -/
def faceInputSurface : FaceInput :=
  { faceInputEx with
    boundary_condition :=
      { type := "Surface", boundary_condition_objects := some ["a","b"] } }

/-- Parsed form of `faceInputSurface`. -/
def faceParsedSurface : Face :=
  { name := "face-1", display_name := "face-1", geometry := geomParsedEx,
    face_type := .wall, boundary_condition := .surface ["a","b"],
    apertures := none, doors := none, indoor_shades := none,
    outdoor_shades := none, properties := { energy := none } }

/-- `apertureInputEx` with a three-object `Surface` boundary condition. -/
def apertureInputSurface : ApertureInput :=
  { apertureInputEx with
    boundary_condition :=
      { type := "Surface", boundary_condition_objects := some ["a","b","c"] } }

/-- Parsed form of `apertureInputSurface`. -/
def apertureParsedSurface : Aperture :=
  { name := "aperture-1", display_name := "aperture-1",
    geometry := geomParsedEx, boundary_condition := .surface ["a","b","c"],
    is_operable := false, indoor_shades := none, outdoor_shades := none,
    properties := { energy := none } }

/-- `doorInputEx` with a three-object `Surface` boundary condition. -/
def doorInputSurface : DoorInput :=
  { doorInputEx with
    boundary_condition :=
      { type := "Surface", boundary_condition_objects := some ["a","b","c"] } }

/-- Parsed form of `doorInputSurface`. -/
def doorParsedSurface : Door :=
  { name := "door-1", display_name := "door-1", geometry := geomParsedEx,
    boundary_condition := .surface ["a","b","c"], is_glass := false,
    properties := { energy := none } }

/-- C1 witness: the validators evaluated at concrete arities, and concrete
successfully-parsed entities with `Surface` boundary conditions of the
required arity. -/
theorem C1_surface_bc_arity_witness :
    Face.suface_bc_objects (.surface ["a"]) = .error .adjacencyArityError ∧
    Face.suface_bc_objects (.surface ["a","b"]) = .ok (.surface ["a","b"]) ∧
    Aperture.suface_bc_objects (.surface ["a","b"]) = .error .adjacencyArityError ∧
    Aperture.suface_bc_objects (.surface ["a","b","c"]) =
      .ok (.surface ["a","b","c"]) ∧
    Door.suface_bc_objects (.surface ["a","b"]) = .error .adjacencyArityError ∧
    Door.suface_bc_objects (.surface ["a","b","c"]) =
      .ok (.surface ["a","b","c"]) ∧
    (["a","b"] : List String).length = 2 ∧
    (["a","b","c"] : List String).length = 3 ∧
    (["a","b","c"] : List String).length = 3 :=
  ⟨C1_surface_bc_arity.1 ["a"] (by decide),
   C1_surface_bc_arity.2.1 ["a","b"] rfl,
   C1_surface_bc_arity.2.2.1 ["a","b"] (by decide),
   C1_surface_bc_arity.2.2.2.1 ["a","b","c"] rfl,
   C1_surface_bc_arity.2.2.2.2.1 ["a","b"] (by decide),
   C1_surface_bc_arity.2.2.2.2.2.1 ["a","b","c"] rfl,
   C1_surface_bc_arity.2.2.2.2.2.2.2.1 faceInputSurface faceParsedSurface
     ["a","b"] (by decide) rfl,
   C1_surface_bc_arity.2.2.2.2.2.2.2.2.1 apertureInputSurface
     apertureParsedSurface ["a","b","c"] (by decide) rfl,
   C1_surface_bc_arity.2.2.2.2.2.2.2.2.2 doorInputSurface doorParsedSurface
     ["a","b","c"] (by decide) rfl⟩

/-- `Except.toOption` is `some` exactly on success. -/
theorem except_toOption_some {ε α : Type} (e : Except ε α) (v : α) :
    e.toOption = some v ↔ e = .ok v := by
  cases e <;> simp [Except.toOption]

/-- Every check of `Room` construction except the `min_items=4` constraint on
`faces`, expressed over the results of the source's own parsers. -/
def roomOtherChecks (i : RoomInput) : Bool :=
  validName i.name && typeOk i.type "Room" &&
    (parseList parseFace i.faces).toOption.isSome &&
    (parseOptList parseShade i.indoor_shades).toOption.isSome &&
    (parseOptList parseShade i.outdoor_shades).toOption.isSome &&
    (match i.properties with
     | none => false
     | some pin => (parseRoomPropertiesAbridged pin).toOption.isSome)

/-- C6: a `Room` with fewer than 4 faces fails construction — with the
minimum-count error kind whenever the earlier name and discriminator checks
pass — and with 4 or more faces construction succeeds whenever every other
check passes. -/
theorem C6_room_min_faces :
    (∀ i : RoomInput, i.faces.length < 4 → (parseRoom i).toOption = none) ∧
    (∀ i : RoomInput, validName i.name = true → typeOk i.type "Room" = true →
        i.faces.length < 4 → parseRoom i = .error .minimumCountError) ∧
    (∀ i : RoomInput, 4 ≤ i.faces.length → roomOtherChecks i = true →
        (parseRoom i).toOption.isSome = true) := by
  refine ⟨?_, ?_, ?_⟩
  · intro i hlen
    obtain ⟨nm, dn, t, fcs, ins, outs, props⟩ := i
    simp only at hlen
    simp only [parseRoom]
    split
    · split
      · split
        case isTrue h3 => omega
        case isFalse h3 => rfl
      · rfl
    · rfl
  · intro i h1 h2 hlen
    obtain ⟨nm, dn, t, fcs, ins, outs, props⟩ := i
    simp only at h1 h2 hlen
    simp only [parseRoom]
    rw [if_pos h1, if_pos h2, if_neg (by omega : ¬ (4 ≤ fcs.length))]
  · intro i hlen hok
    obtain ⟨nm, dn, t, fcs, ins, outs, props⟩ := i
    simp only [roomOtherChecks, Bool.and_eq_true] at hok
    obtain ⟨⟨⟨⟨⟨h1, h2⟩, h3⟩, h4⟩, h5⟩, h6⟩ := hok
    obtain ⟨fs, hfs⟩ := Option.isSome_iff_exists.mp h3
    rw [except_toOption_some] at hfs
    obtain ⟨insp, hinsp⟩ := Option.isSome_iff_exists.mp h4
    rw [except_toOption_some] at hinsp
    obtain ⟨outsp, houtsp⟩ := Option.isSome_iff_exists.mp h5
    rw [except_toOption_some] at houtsp
    cases props with
    | none => cases h6
    | some pin =>
      obtain ⟨ps, hps⟩ := Option.isSome_iff_exists.mp h6
      rw [except_toOption_some] at hps
      simp only at hlen
      simp [parseRoom, h1, h2, hlen, hfs, hinsp, houtsp, hps, Except.toOption]

/-- C6 witness: an empty faces list is rejected and, the name and
discriminator being valid, rejected with the minimum-count error; the
four-face example room parses. -/
theorem C6_room_min_faces_witness :
    (parseRoom { roomInputEx with faces := [] }).toOption = none ∧
    parseRoom { roomInputEx with faces := [] } = .error .minimumCountError ∧
    (parseRoom roomInputEx).toOption.isSome = true :=
  ⟨C6_room_min_faces.1 _ (by decide),
   C6_room_min_faces.2.1 _ (by decide) (by decide) (by decide),
   C6_room_min_faces.2.2 roomInputEx (by decide) (by decide)⟩

/-- Parsed form of `faceInputEx`. -/
def faceParsedEx : Face :=
  { name := "face-1", display_name := "face-1", geometry := geomParsedEx,
    face_type := .wall, boundary_condition := .outdoors, apertures := none,
    doors := none, indoor_shades := none, outdoor_shades := none,
    properties := { energy := none } }

/-- Parsed form of `roomInputEx`. -/
def roomParsedEx : Room :=
  { name := "room-1", display_name := "room-1",
    faces := [faceParsedEx, faceParsedEx, faceParsedEx, faceParsedEx],
    indoor_shades := none, outdoor_shades := none,
    properties := { energy := { blob := "room-energy" } } }

/-- Parsed form of `modelInputEx`. -/
def modelParsedEx : Model :=
  { name := "model-1", display_name := "model-1",
    rooms := some [roomParsedEx], orphaned_faces := none,
    orphaned_shades := none, orphaned_apertures := none,
    orphaned_doors := none, north_angle := 0,
    properties := { energy := { blob := "model-energy" } } }

/-- Every check of `Model` construction except the `north_angle` range
bounds, expressed over the results of the source's own parsers. -/
def modelOtherChecks (i : ModelInput) : Bool :=
  validName i.name && typeOk i.type "Model" &&
    (parseOptList parseRoom i.rooms).toOption.isSome &&
    (parseOptList parseFace i.orphaned_faces).toOption.isSome &&
    (parseOptList parseShade i.orphaned_shades).toOption.isSome &&
    (parseOptList parseAperture i.orphaned_apertures).toOption.isSome &&
    (parseOptList parseDoor i.orphaned_doors).toOption.isSome &&
    (match i.properties with
     | none => false
     | some pin => (parseModelProperties pin).toOption.isSome)

/-- C7: every constructed `Model` has `north_angle` in [0, 360); when every
other check passes, an in-range angle (absent defaults to 0) constructs
successfully and an out-of-range angle fails with the range error; an
out-of-range angle never constructs. -/
theorem C7_north_angle_range :
    (∀ (i : ModelInput) (m : Model), parseModel i = .ok m →
        0 ≤ m.north_angle ∧ m.north_angle < 360) ∧
    (∀ i : ModelInput, modelOtherChecks i = true →
        0 ≤ i.north_angle.getD 0 → i.north_angle.getD 0 < 360 →
        (parseModel i).toOption.isSome = true) ∧
    (∀ i : ModelInput,
        i.north_angle.getD 0 < 0 ∨ 360 ≤ i.north_angle.getD 0 →
        (parseModel i).toOption = none) ∧
    (∀ i : ModelInput, modelOtherChecks i = true →
        (i.north_angle.getD 0 < 0 ∨ 360 ≤ i.north_angle.getD 0) →
        parseModel i = .error .rangeError) := by
  refine ⟨?_, ?_, ?_, ?_⟩
  · intro i m hp
    obtain ⟨nm, dn, t, rms, ofc, osh, oap, odr, na, props⟩ := i
    simp only [parseModel] at hp
    split at hp
    case isFalse h1 => cases hp
    case isTrue h1 =>
      split at hp
      case isFalse h2 => cases hp
      case isTrue h2 =>
        split at hp
        · cases hp
        · rename_i rs hrs
          split at hp
          · cases hp
          · rename_i ofs hofs
            split at hp
            · cases hp
            · rename_i oss hoss
              split at hp
              · cases hp
              · rename_i oas hoas
                split at hp
                · cases hp
                · rename_i ods hods
                  split at hp
                  case isTrue h3 =>
                    split at hp
                    · cases hp
                    · rename_i pin
                      split at hp
                      · cases hp
                      · rename_i ps hps
                        cases hp
                        exact h3
                  case isFalse h3 => cases hp
  · intro i hok ha1 ha2
    obtain ⟨nm, dn, t, rms, ofc, osh, oap, odr, na, props⟩ := i
    simp only [modelOtherChecks, Bool.and_eq_true] at hok
    obtain ⟨⟨⟨⟨⟨⟨⟨h1, h2⟩, h3⟩, h4⟩, h5⟩, h6⟩, h7⟩, h8⟩ := hok
    obtain ⟨rs, hrs⟩ := Option.isSome_iff_exists.mp h3
    rw [except_toOption_some] at hrs
    obtain ⟨ofs, hofs⟩ := Option.isSome_iff_exists.mp h4
    rw [except_toOption_some] at hofs
    obtain ⟨oss, hoss⟩ := Option.isSome_iff_exists.mp h5
    rw [except_toOption_some] at hoss
    obtain ⟨oas, hoas⟩ := Option.isSome_iff_exists.mp h6
    rw [except_toOption_some] at hoas
    obtain ⟨ods, hods⟩ := Option.isSome_iff_exists.mp h7
    rw [except_toOption_some] at hods
    cases props with
    | none => cases h8
    | some pin =>
      obtain ⟨ps, hps⟩ := Option.isSome_iff_exists.mp h8
      rw [except_toOption_some] at hps
      simp only at ha1 ha2
      simp only [parseModel, hrs, hofs, hoss, hoas, hods, hps]
      rw [if_pos h1, if_pos h2, if_pos (And.intro ha1 ha2)]
      rfl
  · intro i hout
    obtain ⟨nm, dn, t, rms, ofc, osh, oap, odr, na, props⟩ := i
    simp only at hout
    simp only [parseModel]
    split
    case isFalse h1 => rfl
    case isTrue h1 =>
      split
      case isFalse h2 => rfl
      case isTrue h2 =>
        split
        · rfl
        · split
          · rfl
          · split
            · rfl
            · split
              · rfl
              · split
                · rfl
                · split
                  case isTrue h3 =>
                    exfalso
                    cases hout with
                    | inl h => exact absurd h3.1 (not_le.mpr h)
                    | inr h => exact absurd h3.2 (not_lt.mpr h)
                  case isFalse h3 => rfl
  · intro i hok hout
    obtain ⟨nm, dn, t, rms, ofc, osh, oap, odr, na, props⟩ := i
    simp only [modelOtherChecks, Bool.and_eq_true] at hok
    obtain ⟨⟨⟨⟨⟨⟨⟨h1, h2⟩, h3⟩, h4⟩, h5⟩, h6⟩, h7⟩, h8⟩ := hok
    obtain ⟨rs, hrs⟩ := Option.isSome_iff_exists.mp h3
    rw [except_toOption_some] at hrs
    obtain ⟨ofs, hofs⟩ := Option.isSome_iff_exists.mp h4
    rw [except_toOption_some] at hofs
    obtain ⟨oss, hoss⟩ := Option.isSome_iff_exists.mp h5
    rw [except_toOption_some] at hoss
    obtain ⟨oas, hoas⟩ := Option.isSome_iff_exists.mp h6
    rw [except_toOption_some] at hoas
    obtain ⟨ods, hods⟩ := Option.isSome_iff_exists.mp h7
    rw [except_toOption_some] at hods
    cases props with
    | none => cases h8
    | some pin =>
      obtain ⟨ps, hps⟩ := Option.isSome_iff_exists.mp h8
      rw [except_toOption_some] at hps
      simp only at hout
      have hneg : ¬ (0 ≤ na.getD 0 ∧ na.getD 0 < 360) := by
        intro hcon
        cases hout with
        | inl h => exact absurd hcon.1 (not_le.mpr h)
        | inr h => exact absurd hcon.2 (not_lt.mpr h)
      simp only [parseModel, hrs, hofs, hoss, hoas, hods, hps]
      rw [if_pos h1, if_pos h2, if_neg hneg]

/-- C7 witness: the example model (angle 0) is in range and parses; angle 360
is rejected with the range error. -/
theorem C7_north_angle_range_witness :
    (0 ≤ modelParsedEx.north_angle ∧ modelParsedEx.north_angle < 360) ∧
    (parseModel modelInputEx).toOption.isSome = true ∧
    (parseModel { modelInputEx with north_angle := some 360 }).toOption = none ∧
    parseModel { modelInputEx with north_angle := some 360 } =
      .error .rangeError :=
  ⟨C7_north_angle_range.1 modelInputEx modelParsedEx (by decide),
   C7_north_angle_range.2.1 modelInputEx (by decide) (by decide) (by decide),
   C7_north_angle_range.2.2.1 _ (by decide),
   C7_north_angle_range.2.2.2 _ (by decide) (by decide)⟩

/-- C9: an absent `is_glass` parses to `False`, an absent `is_operable`
parses to `False`, an absent `north_angle` parses to 0, and the absent
optional container fields of a `Model` stay absent rather than becoming
empty containers. -/
theorem C9_defaults :
    (∀ (i : DoorInput) (d : Door), parseDoor i = .ok d → i.is_glass = none →
        d.is_glass = false) ∧
    (∀ (i : ApertureInput) (a : Aperture), parseAperture i = .ok a →
        i.is_operable = none → a.is_operable = false) ∧
    (∀ (i : ModelInput) (m : Model), parseModel i = .ok m →
        (i.north_angle = none → m.north_angle = 0) ∧
        (i.rooms = none → m.rooms = none) ∧
        (i.orphaned_faces = none → m.orphaned_faces = none) ∧
        (i.orphaned_shades = none → m.orphaned_shades = none) ∧
        (i.orphaned_apertures = none → m.orphaned_apertures = none) ∧
        (i.orphaned_doors = none → m.orphaned_doors = none)) := by
  refine ⟨?_, ?_, ?_⟩
  · intro i d hp hig
    obtain ⟨nm, dn, t, geo, bc, ig, props⟩ := i
    simp only at hig
    subst hig
    simp only [parseDoor] at hp
    split at hp
    case isFalse h1 => cases hp
    case isTrue h1 =>
      split at hp
      case isFalse h2 => cases hp
      case isTrue h2 =>
        split at hp
        · cases hp
        · rename_i g hg
          split at hp
          · cases hp
          · rename_i bc0 hbc0
            split at hp
            · cases hp
            · rename_i bc1 hbc1
              split at hp
              · cases hp
              · rename_i pin
                split at hp
                · cases hp
                · rename_i ps hps
                  cases hp
                  rfl
  · intro i a hp hio
    obtain ⟨nm, dn, t, geo, bc, io, ins, outs, props⟩ := i
    simp only at hio
    subst hio
    simp only [parseAperture] at hp
    split at hp
    case isFalse h1 => cases hp
    case isTrue h1 =>
      split at hp
      case isFalse h2 => cases hp
      case isTrue h2 =>
        split at hp
        · cases hp
        · rename_i g hg
          split at hp
          · cases hp
          · rename_i bc0 hbc0
            split at hp
            · cases hp
            · rename_i bc1 hbc1
              split at hp
              · cases hp
              · rename_i insp hinsp
                split at hp
                · cases hp
                · rename_i outsp houtsp
                  split at hp
                  · cases hp
                  · rename_i pin
                    split at hp
                    · cases hp
                    · rename_i ps hps
                      cases hp
                      rfl
  · intro i m hp
    obtain ⟨nm, dn, t, rms, ofc, osh, oap, odr, na, props⟩ := i
    simp only [parseModel] at hp
    split at hp
    case isFalse h1 => cases hp
    case isTrue h1 =>
      split at hp
      case isFalse h2 => cases hp
      case isTrue h2 =>
        split at hp
        · cases hp
        · rename_i rs hrs
          split at hp
          · cases hp
          · rename_i ofs hofs
            split at hp
            · cases hp
            · rename_i oss hoss
              split at hp
              · cases hp
              · rename_i oas hoas
                split at hp
                · cases hp
                · rename_i ods hods
                  split at hp
                  case isFalse h3 => cases hp
                  case isTrue h3 =>
                    split at hp
                    · cases hp
                    · rename_i pin
                      split at hp
                      · cases hp
                      · rename_i ps hps
                        cases hp
                        refine ⟨?_, ?_, ?_, ?_, ?_, ?_⟩
                        · intro h
                          subst h
                          rfl
                        · intro h
                          subst h
                          simp only [parseOptList] at hrs
                          cases hrs
                          rfl
                        · intro h
                          subst h
                          simp only [parseOptList] at hofs
                          cases hofs
                          rfl
                        · intro h
                          subst h
                          simp only [parseOptList] at hoss
                          cases hoss
                          rfl
                        · intro h
                          subst h
                          simp only [parseOptList] at hoas
                          cases hoas
                          rfl
                        · intro h
                          subst h
                          simp only [parseOptList] at hods
                          cases hods
                          rfl

/-- `doorInputEx` without the `is_glass` field. -/
def doorInputNoGlass : DoorInput := { doorInputEx with is_glass := none }

/-- Parsed form of `doorInputEx` (and of `doorInputNoGlass`). -/
def doorParsedEx : Door :=
  { name := "door-1", display_name := "door-1", geometry := geomParsedEx,
    boundary_condition := .outdoors, is_glass := false,
    properties := { energy := none } }

/-- `apertureInputEx` without the `is_operable` field. -/
def apertureInputNoOperable : ApertureInput :=
  { apertureInputEx with is_operable := none }

/-- Parsed form of `apertureInputEx` (and of `apertureInputNoOperable`). -/
def apertureParsedEx : Aperture :=
  { name := "aperture-1", display_name := "aperture-1",
    geometry := geomParsedEx, boundary_condition := .outdoors,
    is_operable := false, indoor_shades := none, outdoor_shades := none,
    properties := { energy := none } }

/-- `modelInputEx` without `north_angle` and without `rooms`. -/
def modelInputDefaults : ModelInput :=
  { modelInputEx with north_angle := none, rooms := none }

/-- Parsed form of `modelInputDefaults`. -/
def modelParsedDefaults : Model :=
  { modelParsedEx with north_angle := 0, rooms := none }

/-- C9 witness: the defaults evaluated at concrete inputs omitting the
fields. -/
theorem C9_defaults_witness :
    doorParsedEx.is_glass = false ∧ apertureParsedEx.is_operable = false ∧
    modelParsedDefaults.north_angle = 0 ∧ modelParsedDefaults.rooms = none :=
  ⟨C9_defaults.1 doorInputNoGlass doorParsedEx (by decide) rfl,
   C9_defaults.2.1 apertureInputNoOperable apertureParsedEx (by decide) rfl,
   (C9_defaults.2.2 modelInputDefaults modelParsedDefaults (by decide)).1 rfl,
   (C9_defaults.2.2 modelInputDefaults modelParsedDefaults (by decide)).2.1 rfl⟩

/-- C4 counterexample: a `RoomPropertiesAbridged` envelope whose `energy`
sub-payload is absent fails construction (and so does `ModelProperties`),
refuting the claim that every envelope's sub-payload is optional. -/
theorem C4_room_energy_required_cex :
    parseRoomPropertiesAbridged
        { type := some "RoomPropertiesAbridged", energy := none } =
      .error .schemaError ∧
    parseModelProperties { type := some "ModelProperties", energy := none } =
      .error .schemaError := by
  constructor
  · decide
  · decide

/-- C4 (amended): the `properties` envelope is required on every entity type
(construction fails when it is absent); the `energy` sub-payload is optional
in the `Shade`, `Door`, `Aperture` and `Face` envelopes, but required in
`RoomPropertiesAbridged` and `ModelProperties`. -/
theorem C4_envelope_required :
    (∀ i : ShadeInput, i.properties = none → (parseShade i).toOption = none) ∧
    (∀ i : DoorInput, i.properties = none → (parseDoor i).toOption = none) ∧
    (∀ i : ApertureInput, i.properties = none →
        (parseAperture i).toOption = none) ∧
    (∀ i : FaceInput, i.properties = none → (parseFace i).toOption = none) ∧
    (∀ i : RoomInput, i.properties = none → (parseRoom i).toOption = none) ∧
    (∀ i : ModelInput, i.properties = none → (parseModel i).toOption = none) ∧
    (∀ t : Option String, typeOk t "ShadePropertiesAbridged" = true →
        parseShadePropertiesAbridged { type := t, energy := none } =
          .ok { energy := none }) ∧
    (∀ t : Option String, typeOk t "DoorPropertiesAbridged" = true →
        parseDoorPropertiesAbridged { type := t, energy := none } =
          .ok { energy := none }) ∧
    (∀ t : Option String, typeOk t "AperturePropertiesAbridged" = true →
        parseAperturePropertiesAbridged { type := t, energy := none } =
          .ok { energy := none }) ∧
    (∀ t : Option String, typeOk t "FacePropertiesAbridged" = true →
        parseFacePropertiesAbridged { type := t, energy := none } =
          .ok { energy := none }) ∧
    (∀ t : Option String,
        (parseRoomPropertiesAbridged { type := t, energy := none }).toOption
          = none) ∧
    (∀ t : Option String,
        (parseModelProperties { type := t, energy := none }).toOption
          = none) := by
  refine ⟨?_, ?_, ?_, ?_, ?_, ?_, ?_, ?_, ?_, ?_, ?_, ?_⟩
  · intro i h
    obtain ⟨nm, dn, t, geo, props⟩ := i
    simp only at h
    subst h
    simp only [parseShade]
    repeat' first
      | rfl
      | split
  · intro i h
    obtain ⟨nm, dn, t, geo, bc, ig, props⟩ := i
    simp only at h
    subst h
    simp only [parseDoor]
    repeat' first
      | rfl
      | split
  · intro i h
    obtain ⟨nm, dn, t, geo, bc, io, ins, outs, props⟩ := i
    simp only at h
    subst h
    simp only [parseAperture]
    repeat' first
      | rfl
      | split
  · intro i h
    obtain ⟨nm, dn, t, geo, fts, bc, aps, drs, ins, outs, props⟩ := i
    simp only at h
    subst h
    simp only [parseFace]
    repeat' first
      | rfl
      | split
  · intro i h
    obtain ⟨nm, dn, t, fcs, ins, outs, props⟩ := i
    simp only at h
    subst h
    simp only [parseRoom]
    repeat' first
      | rfl
      | split
  · intro i h
    obtain ⟨nm, dn, t, rms, ofc, osh, oap, odr, na, props⟩ := i
    simp only at h
    subst h
    simp only [parseModel]
    repeat' first
      | rfl
      | split
  · intro t ht
    simp [parseShadePropertiesAbridged, ht]
  · intro t ht
    simp [parseDoorPropertiesAbridged, ht]
  · intro t ht
    simp [parseAperturePropertiesAbridged, ht]
  · intro t ht
    simp [parseFacePropertiesAbridged, ht]
  · intro t
    simp only [parseRoomPropertiesAbridged]
    split <;> rfl
  · intro t
    simp only [parseModelProperties]
    split <;> rfl

/-- C4 witness: concrete inputs without `properties`, envelopes without
`energy`. -/
theorem C4_envelope_required_witness :
    (parseShade { shadeInputEx "shade-1" with properties := none }).toOption
      = none ∧
    (parseDoor { doorInputEx with properties := none }).toOption = none ∧
    (parseAperture { apertureInputEx with properties := none }).toOption
      = none ∧
    (parseFace { faceInputEx with properties := none }).toOption = none ∧
    (parseRoom { roomInputEx with properties := none }).toOption = none ∧
    (parseModel { modelInputEx with properties := none }).toOption = none ∧
    parseShadePropertiesAbridged
        { type := some "ShadePropertiesAbridged", energy := none } =
      .ok { energy := none } ∧
    parseDoorPropertiesAbridged
        { type := some "DoorPropertiesAbridged", energy := none } =
      .ok { energy := none } ∧
    parseAperturePropertiesAbridged
        { type := some "AperturePropertiesAbridged", energy := none } =
      .ok { energy := none } ∧
    parseFacePropertiesAbridged
        { type := some "FacePropertiesAbridged", energy := none } =
      .ok { energy := none } ∧
    (parseRoomPropertiesAbridged
        { type := some "RoomPropertiesAbridged", energy := none }).toOption
      = none ∧
    (parseModelProperties
        { type := some "ModelProperties", energy := none }).toOption
      = none :=
  ⟨C4_envelope_required.1 _ rfl,
   C4_envelope_required.2.1 _ rfl,
   C4_envelope_required.2.2.1 _ rfl,
   C4_envelope_required.2.2.2.1 _ rfl,
   C4_envelope_required.2.2.2.2.1 _ rfl,
   C4_envelope_required.2.2.2.2.2.1 _ rfl,
   C4_envelope_required.2.2.2.2.2.2.1 _ (by decide),
   C4_envelope_required.2.2.2.2.2.2.2.1 _ (by decide),
   C4_envelope_required.2.2.2.2.2.2.2.2.1 _ (by decide),
   C4_envelope_required.2.2.2.2.2.2.2.2.2.1 _ (by decide),
   C4_envelope_required.2.2.2.2.2.2.2.2.2.2.1 _,
   C4_envelope_required.2.2.2.2.2.2.2.2.2.2.2 _⟩

/-- A `Model` input whose orphaned shades are two copies of the same shade
input (hence two entities with the same name). -/
def dupShadeModelInput (si : ShadeInput) : ModelInput :=
  { name := "model-1", display_name := some "model-1", type := some "Model",
    rooms := none, orphaned_faces := none, orphaned_shades := some [si, si],
    orphaned_apertures := none, orphaned_doors := none, north_angle := some 0,
    properties := some { type := some "ModelProperties",
                         energy := some { blob := "model-energy" } } }

/-- The parsed form of `dupShadeModelInput`. -/
def dupShadeModelParsed (s : Shade) : Model :=
  { name := "model-1", display_name := "model-1", rooms := none,
    orphaned_faces := none, orphaned_shades := some [s, s],
    orphaned_apertures := none, orphaned_doors := none, north_angle := 0,
    properties := { energy := { blob := "model-energy" } } }

/-- C2 (amended): `Model` construction performs no cross-entity
name-uniqueness check: for every individually valid shade, a model holding
two copies of it — two entities with the identical name — constructs
successfully, and the constructed model indeed contains the two same-named
shades. -/
theorem C2_no_duplicate_name_check (si : ShadeInput) (s : Shade)
    (hp : parseShade si = .ok s) :
    parseModel (dupShadeModelInput si) = .ok (dupShadeModelParsed s) ∧
    (dupShadeModelParsed s).orphaned_shades = some [s, s] := by
  refine ⟨?_, rfl⟩
  have hlist : parseList parseShade [si, si] = .ok [s, s] := by
    simp [parseList, hp]
  have hprops : parseModelProperties
      { type := some "ModelProperties",
        energy := some { blob := "model-energy" } } =
      .ok { energy := { blob := "model-energy" } } := by decide
  simp only [parseModel, dupShadeModelInput, dupShadeModelParsed,
    hprops, parseOptList, Option.getD_some]
  rw [if_pos (by decide : validName "model-1" = true)]
  rw [if_pos (by decide : typeOk (some "Model") "Model" = true)]
  simp only [hlist]
  rw [if_pos (show (0:ℚ) ≤ 0 ∧ (0:ℚ) < 360 by norm_num)]

/-- Parsed form of `shadeInputEx "dup"`. -/
def shadeParsedDup : Shade :=
  { name := "dup", display_name := "dup", geometry := geomParsedEx,
    properties := { energy := none } }

/-- C2 witness: the duplicate-shade model built from a concrete shade named
`dup` parses successfully and holds the two same-named shades. -/
theorem C2_no_duplicate_name_check_witness :
    parseModel (dupShadeModelInput (shadeInputEx "dup")) =
      .ok (dupShadeModelParsed shadeParsedDup) ∧
    (dupShadeModelParsed shadeParsedDup).orphaned_shades =
      some [shadeParsedDup, shadeParsedDup] :=
  C2_no_duplicate_name_check (shadeInputEx "dup") shadeParsedDup (by decide)

/-- C2 counterexample: construction of a model containing two entities with
the identical name `dup` returns a successfully constructed model — it does
not fail, refuting the claimed duplicate-name failure. -/
theorem C2_duplicate_names_accepted_cex :
    parseModel (dupShadeModelInput (shadeInputEx "dup")) =
      .ok (dupShadeModelParsed shadeParsedDup) ∧
    (dupShadeModelParsed shadeParsedDup).orphaned_shades =
      some [shadeParsedDup, shadeParsedDup] ∧
    (shadeInputEx "dup").name = "dup" ∧
    shadeParsedDup.name = "dup" := by
  refine ⟨by decide, rfl, rfl, rfl⟩

/-- C8 (amended): for every input record that passes validation and writes
every defaulted field explicitly (the `type` discriminators, `display_name`,
the boolean flags, `north_angle`), serializing the parsed `Model` reproduces
the input record exactly: no field is lost and no list is re-ordered.
Without the explicitness condition the round-trip inserts the defaulted
fields (see the counterexample). -/
theorem C8_serialize_parse_roundtrip (i : ModelInput) (m : Model)
    (hp : parseModel i = .ok m) (he : ModelInput.explicit i = true) :
    serializeModel m = i := by
  obtain ⟨nm, dn, t, rms, ofc, osh, oap, odr, na, props⟩ := i
  simp only [ModelInput.explicit, Bool.and_eq_true] at he
  obtain ⟨⟨⟨⟨⟨⟨⟨⟨hdn, ht⟩, hrooms⟩, hofse⟩, hosse⟩, hoase⟩, hodse⟩, hna⟩,
    hprops⟩ := he
  obtain ⟨dnv, rfl⟩ := Option.isSome_iff_exists.mp hdn
  obtain ⟨tv, rfl⟩ := Option.isSome_iff_exists.mp ht
  obtain ⟨nav, rfl⟩ := Option.isSome_iff_exists.mp hna
  simp only [parseModel] at hp
  split at hp
  case isFalse h1 => cases hp
  case isTrue h1 =>
    split at hp
    case isFalse h2 => cases hp
    case isTrue h2 =>
      have htv : tv = "Model" := by
        simpa [typeOk] using h2
      subst htv
      split at hp
      · cases hp
      · rename_i rs hrs
        split at hp
        · cases hp
        · rename_i ofs hofs
          split at hp
          · cases hp
          · rename_i oss hoss
            split at hp
            · cases hp
            · rename_i oas hoas
              split at hp
              · cases hp
              · rename_i ods hods
                split at hp
                case isFalse h3 => cases hp
                case isTrue h3 =>
                  split at hp
                  · cases hp
                  · rename_i pin
                    split at hp
                    · cases hp
                    · rename_i ps hps
                      cases hp
                      have g1 := parseOptList_roundtrip parseRoom
                        serializeRoom RoomInput.explicit parseRoom_roundtrip
                        rms rs hrs hrooms
                      have g2 := parseOptList_roundtrip parseFace
                        serializeFace FaceInput.explicit parseFace_roundtrip
                        ofc ofs hofs hofse
                      have g3 := parseOptList_roundtrip parseShade
                        serializeShade ShadeInput.explicit parseShade_roundtrip
                        osh oss hoss hosse
                      have g4 := parseOptList_roundtrip parseAperture
                        serializeAperture ApertureInput.explicit
                        parseAperture_roundtrip oap oas hoas hoase
                      have g5 := parseOptList_roundtrip parseDoor
                        serializeDoor DoorInput.explicit parseDoor_roundtrip
                        odr ods hods hodse
                      have g6 := parseModelProperties_roundtrip pin ps hps
                        (by simpa using hprops)
                      simp [serializeModel, g1, g2, g3, g4, g5, g6]

/-- C8 witness: the fully-explicit example model round-trips exactly. -/
theorem C8_serialize_parse_roundtrip_witness :
    serializeModel modelParsedEx = modelInputEx :=
  C8_serialize_parse_roundtrip modelInputEx modelParsedEx (by decide)
    (by decide)

/-- C8 counterexample: an input that omits `north_angle` passes validation,
but serializing the parsed model yields a record with `north_angle`
populated — not structurally equal to the input. -/
theorem C8_roundtrip_cex :
    parseModel { modelInputEx with north_angle := none } =
      .ok modelParsedEx ∧
    serializeModel modelParsedEx ≠ { modelInputEx with north_angle := none } := by
  constructor
  · decide
  · decide
